import Mathlib

/-!
Verification of the dsmr5 DSMR/e-MUCS telegram parser.

Shallow embedding conventions:
* Rust `&str` values are modelled as `List Char` (the protocol is ASCII; char
  positions coincide with byte positions on ASCII data).  The raw frame buffer
  handled by `Readout::to_telegram` and the streaming `Reader` is modelled at
  the byte level as `List Nat` (each element one byte).
* Rust `Result<T, Error>` is `Except Error T`.  Arithmetic on the unsigned
  machine integers follows the overflow-checked (debug) semantics: an
  overflowing `-`, `*`, `+` or `pow` is a panic, modelled by the outer `Option`
  layer of `PRes` (`none` = panic).  `f64` values produced from fixed-point
  decimals are modelled as exact rationals.
-/

/-- Errors of the crate (src/lib.rs; `ObisForgotten` is the reducer-gap error
used by the state module). -/
inductive Error where
  | InvalidFormat
  | InvalidChecksum
  | UnknownObis
  | ObisForgotten
deriving DecidableEq, Repr

deriving instance DecidableEq for Except

/-- Panic-aware result: `none` models a Rust panic (overflow-checked build),
`some` a returned `Result`. -/
abbrev PRes (α : Type) : Type := Option (Except Error α)

def pok {α : Type} (a : α) : PRes α := some (Except.ok a)

def perr {α : Type} (e : Error) : PRes α := some (Except.error e)

/-- Lift a total (never panicking) `Result` computation into `PRes`. -/
def plift {α : Type} (x : Except Error α) : PRes α := some x

def pbind {α β : Type} (x : PRes α) (f : α → PRes β) : PRes β :=
  match x with
  | none => none
  | some (Except.error e) => some (Except.error e)
  | some (Except.ok a) => f a

/-- Digit value of a character for a radix, as in Rust `char::to_digit`. -/
def charDigit (radix : Nat) (c : Char) : Option Nat :=
  let v : Option Nat :=
    if 48 ≤ c.toNat ∧ c.toNat ≤ 57 then some (c.toNat - 48)
    else if 97 ≤ c.toNat ∧ c.toNat ≤ 122 then some (c.toNat - 87)
    else if 65 ≤ c.toNat ∧ c.toNat ≤ 90 then some (c.toNat - 55)
    else none
  match v with
  | some v => if v < radix then some v else none
  | none => none

/-- Accumulating loop of `from_str_radix`: fails on a non-digit and on any
intermediate value exceeding `bound` (the integer type's maximum). -/
def digitsLoopC (radix bound : Nat) (acc : Nat) : List Char → Option Nat
  | [] => some acc
  | c :: rest =>
    match charDigit radix c with
    | none => none
    | some d =>
      if acc * radix + d ≤ bound then digitsLoopC radix bound (acc * radix + d) rest
      else none

/-- Rust `uN::from_str_radix` on a char-modelled slice: for the unsigned
integer types only a leading `+` is consumed as a sign (a lone `+` is an
error); any other character, including `-`, must be a digit. -/
def fromStrRadixC (radix bound : Nat) (s : List Char) : Option Nat :=
  match s with
  | [] => none
  | c :: rest =>
    if c = '+' then
      if rest = [] then none else digitsLoopC radix bound 0 rest
    else digitsLoopC radix bound 0 (c :: rest)

def u8Max : Nat := 255
def u16Max : Nat := 65535
def u64Max : Nat := 18446744073709551615

/-- Rust `str::get(a..b)` in the char model: `Some` iff `a ≤ b ≤ len`. -/
def sliceGet (s : List Char) (a b : Nat) : Option (List Char) :=
  if a ≤ b ∧ b ≤ s.length then some ((s.drop a).take (b - a)) else none

/-- Rust `&s[i..]` (panics when `i > len`). -/
def idxFrom (s : List Char) (i : Nat) : Option (List Char) :=
  if i ≤ s.length then some (s.drop i) else none

namespace OctetString

/-- `OctetString::parse` (src/types.rs): the `length` chars after `(`. -/
def parse (body : List Char) (length : Nat) : Except Error (List Char) :=
  match sliceGet body 1 (length + 1) with
  | none => Except.error Error.InvalidFormat
  | some s => Except.ok s

/-- `OctetString::parse_max` (src/types.rs): position of the first `)` minus
one is the content length; the `- 1` underflows (panics) when `)` is the very
first character. -/
def parse_max (body : List Char) (max_length : Nat) : PRes (List Char) :=
  match body.findIdx? (fun c => c = ')') with
  | none => perr Error.InvalidFormat
  | some idx =>
    if idx = 0 then none
    else
      let e := idx - 1
      if e > max_length then perr Error.InvalidFormat
      else plift (parse body e)

end OctetString

/-- Timestamps (src/types.rs). -/
structure TST where
  year : Nat
  month : Nat
  day : Nat
  hour : Nat
  minute : Nat
  second : Nat
  dst : Bool
deriving DecidableEq, Repr

/-- The two-digit field reader of `TST::parse`: `&body[i..=i+1]` parsed as u8. -/
def parsetwo (body : List Char) (i : Nat) : Option Nat :=
  fromStrRadixC 10 u8Max ((body.drop i).take 2)

/-- `TST::parse` (src/types.rs). -/
def TST.parse (body : List Char) : Except Error TST :=
  if body.length < 15 then Except.error Error.InvalidFormat
  else
    match parsetwo body 1 with
    | none => Except.error Error.InvalidFormat
    | some year =>
    match parsetwo body 3 with
    | none => Except.error Error.InvalidFormat
    | some month =>
    match parsetwo body 5 with
    | none => Except.error Error.InvalidFormat
    | some day =>
    match parsetwo body 7 with
    | none => Except.error Error.InvalidFormat
    | some hour =>
    match parsetwo body 9 with
    | none => Except.error Error.InvalidFormat
    | some minute =>
    match parsetwo body 11 with
    | none => Except.error Error.InvalidFormat
    | some second =>
      if (body.drop 13).take 1 = ['S'] then
        Except.ok ⟨year, month, day, hour, minute, second, true⟩
      else if (body.drop 13).take 1 = ['W'] then
        Except.ok ⟨year, month, day, hour, minute, second, false⟩
      else Except.error Error.InvalidFormat

/-- Fixed-point unsigned decimals (src/types.rs). -/
structure UFixedDouble where
  buffer : Nat
  point : Nat
deriving DecidableEq, Repr

/-- `UFixedDouble::parse` (src/types.rs): `length + 1` chars after `(` (the
extra one is the literal decimal point), split at `length - point`, both
halves parsed as u64, recombined.  The usize subtraction, the u64 `pow`, `*`
and `+` are overflow-checked. -/
def UFixedDouble.parse (body : List Char) (length point : Nat) : PRes UFixedDouble :=
  match sliceGet body 1 (length + 2) with
  | none => perr Error.InvalidFormat
  | some buffer =>
    if length < point then none
    else
      let upper := buffer.take (length - point)
      let lower := buffer.drop (length - point)
      match fromStrRadixC 10 u64Max upper with
      | none => perr Error.InvalidFormat
      | some up =>
        match idxFrom lower 1 with
        | none => none
        | some lowtail =>
          match fromStrRadixC 10 u64Max lowtail with
          | none => perr Error.InvalidFormat
          | some lo =>
            if u64Max < 10 ^ point then none
            else if u64Max < up * 10 ^ point + lo then none
            else pok ⟨up * 10 ^ point + lo, point⟩

/-- `impl From<&UFixedDouble> for f64` (src/types.rs), with the floating value
modelled as an exact rational: the mantissa divided by `10^point`. -/
def UFixedDouble.toFloat (u : UFixedDouble) : ℚ :=
  (u.buffer : ℚ) / (10 : ℚ) ^ u.point

/-- Fixed length unsigned integers (src/types.rs). -/
structure UFixedInteger where
  val : Nat
deriving DecidableEq, Repr

/-- `UFixedInteger::parse` (src/types.rs). -/
def UFixedInteger.parse (body : List Char) (length : Nat) : Except Error UFixedInteger :=
  match sliceGet body 1 (length + 1) with
  | none => Except.error Error.InvalidFormat
  | some buffer =>
    match fromStrRadixC 10 u64Max buffer with
    | none => Except.error Error.InvalidFormat
    | some n => Except.ok ⟨n⟩
/-- The reference string `1-3:0.2.8`. -/
def rVersion : List Char := ['1', '-', '3', ':', '0', '.', '2', '.', '8']

/-- The reference string `0-0:1.0.0`. -/
def rDateTime : List Char := ['0', '-', '0', ':', '1', '.', '0', '.', '0']

/-- The reference string `0-0:96.1.1`. -/
def rEquipId : List Char := ['0', '-', '0', ':', '9', '6', '.', '1', '.', '1']

/-- The reference string `1-0:1.8.1`. -/
def rMrTo1 : List Char := ['1', '-', '0', ':', '1', '.', '8', '.', '1']

/-- The reference string `1-0:1.8.2`. -/
def rMrTo2 : List Char := ['1', '-', '0', ':', '1', '.', '8', '.', '2']

/-- The reference string `1-0:2.8.1`. -/
def rMrBy1 : List Char := ['1', '-', '0', ':', '2', '.', '8', '.', '1']

/-- The reference string `1-0:2.8.2`. -/
def rMrBy2 : List Char := ['1', '-', '0', ':', '2', '.', '8', '.', '2']

/-- The reference string `0-0:96.14.0`. -/
def rTariffInd : List Char := ['0', '-', '0', ':', '9', '6', '.', '1', '4', '.', '0']

/-- The reference string `1-0:1.7.0`. -/
def rPowerDel : List Char := ['1', '-', '0', ':', '1', '.', '7', '.', '0']

/-- The reference string `1-0:2.7.0`. -/
def rPowerRec : List Char := ['1', '-', '0', ':', '2', '.', '7', '.', '0']

/-- The reference string `0-0:96.7.21`. -/
def rPowerFail : List Char := ['0', '-', '0', ':', '9', '6', '.', '7', '.', '2', '1']

/-- The reference string `0-0:96.7.9`. -/
def rLongPowerFail : List Char := ['0', '-', '0', ':', '9', '6', '.', '7', '.', '9']

/-- The reference string `1-0:99.97.0`. -/
def rPFEventLog : List Char := ['1', '-', '0', ':', '9', '9', '.', '9', '7', '.', '0']

/-- The reference string `1-0:32.32.0`. -/
def rVSags1 : List Char := ['1', '-', '0', ':', '3', '2', '.', '3', '2', '.', '0']

/-- The reference string `1-0:52.32.0`. -/
def rVSags2 : List Char := ['1', '-', '0', ':', '5', '2', '.', '3', '2', '.', '0']

/-- The reference string `1-0:72.32.0`. -/
def rVSags3 : List Char := ['1', '-', '0', ':', '7', '2', '.', '3', '2', '.', '0']

/-- The reference string `1-0:32.36.0`. -/
def rVSwells1 : List Char := ['1', '-', '0', ':', '3', '2', '.', '3', '6', '.', '0']

/-- The reference string `1-0:52.36.0`. -/
def rVSwells2 : List Char := ['1', '-', '0', ':', '5', '2', '.', '3', '6', '.', '0']

/-- The reference string `1-0:72.36.0`. -/
def rVSwells3 : List Char := ['1', '-', '0', ':', '7', '2', '.', '3', '6', '.', '0']

/-- The reference string `0-0:96.13.1`. -/
def rTextCode : List Char := ['0', '-', '0', ':', '9', '6', '.', '1', '3', '.', '1']

/-- The reference string `0-0:96.13.0`. -/
def rTextMsg : List Char := ['0', '-', '0', ':', '9', '6', '.', '1', '3', '.', '0']

/-- The reference string `1-0:31.7.0`. -/
def rCur1 : List Char := ['1', '-', '0', ':', '3', '1', '.', '7', '.', '0']

/-- The reference string `1-0:51.7.0`. -/
def rCur2 : List Char := ['1', '-', '0', ':', '5', '1', '.', '7', '.', '0']

/-- The reference string `1-0:71.7.0`. -/
def rCur3 : List Char := ['1', '-', '0', ':', '7', '1', '.', '7', '.', '0']

/-- The reference string `1-0:21.7.0`. -/
def rAPP1 : List Char := ['1', '-', '0', ':', '2', '1', '.', '7', '.', '0']

/-- The reference string `1-0:41.7.0`. -/
def rAPP2 : List Char := ['1', '-', '0', ':', '4', '1', '.', '7', '.', '0']

/-- The reference string `1-0:61.7.0`. -/
def rAPP3 : List Char := ['1', '-', '0', ':', '6', '1', '.', '7', '.', '0']

/-- The reference string `1-0:22.7.0`. -/
def rAPN1 : List Char := ['1', '-', '0', ':', '2', '2', '.', '7', '.', '0']

/-- The reference string `1-0:42.7.0`. -/
def rAPN2 : List Char := ['1', '-', '0', ':', '4', '2', '.', '7', '.', '0']

/-- The reference string `1-0:62.7.0`. -/
def rAPN3 : List Char := ['1', '-', '0', ':', '6', '2', '.', '7', '.', '0']

/-- The reference string `1-0:32.7.0`. -/
def rVolt1 : List Char := ['1', '-', '0', ':', '3', '2', '.', '7', '.', '0']

/-- The reference string `1-0:52.7.0`. -/
def rVolt2 : List Char := ['1', '-', '0', ':', '5', '2', '.', '7', '.', '0']

/-- The reference string `1-0:72.7.0`. -/
def rVolt3 : List Char := ['1', '-', '0', ':', '7', '2', '.', '7', '.', '0']

/-- The reference string `0-0:96.1.4`. -/
def rEVersion : List Char := ['0', '-', '0', ':', '9', '6', '.', '1', '.', '4']

/-- The reference string `0-0:96.3.10`. -/
def rBreaker : List Char := ['0', '-', '0', ':', '9', '6', '.', '3', '.', '1', '0']

/-- The reference string `0-0:17.0.0`. -/
def rLimiter : List Char := ['0', '-', '0', ':', '1', '7', '.', '0', '.', '0']

/-- The reference string `1-0:31.4.0`. -/
def rFuse : List Char := ['1', '-', '0', ':', '3', '1', '.', '4', '.', '0']

/-- The reference string `1-0:1.4.0`. -/
def rAvgDemand : List Char := ['1', '-', '0', ':', '1', '.', '4', '.', '0']

/-- The reference string `1-0:1.6.0`. -/
def rMaxDemandMonth : List Char := ['1', '-', '0', ':', '1', '.', '6', '.', '0']

/-- The reference string `0-0:98.1.0`. -/
def rMaxDemandYear : List Char := ['0', '-', '0', ':', '9', '8', '.', '1', '.', '0']

/-- The reference string `0-`. -/
def sZeroDash : List Char := ['0', '-']

/-- The reference string `24.1.0`. -/
def sSlaveDev : List Char := ['2', '4', '.', '1', '.', '0']

/-- The reference string `96.1.0`. -/
def sSlaveEquip : List Char := ['9', '6', '.', '1', '.', '0']

/-- The reference string `24.2.1`. -/
def sSlaveMR : List Char := ['2', '4', '.', '2', '.', '1']

/-- The reference string `24.4.0`. -/
def sValve : List Char := ['2', '4', '.', '4', '.', '0']

/-- The reference string `24.2.3`. -/
def sSlaveMRNC : List Char := ['2', '4', '.', '2', '.', '3']

/-- The reference string `96.1.1`. -/
def sSlaveEquipE : List Char := ['9', '6', '.', '1', '.', '1']

/-- The reference string `9-9:9.9.9`. -/
def rUnknown9 : List Char := ['9', '-', '9', ':', '9', '.', '9', '.', '9']

/-- One of two tariffs used by the meter (src/obis/mod.rs). -/
inductive Tariff where
  | Tariff1
  | Tariff2
deriving DecidableEq, Repr

/-- One of up to three powerlines connected to the meter (src/obis/mod.rs). -/
inductive Line where
  | Line1
  | Line2
  | Line3
deriving DecidableEq, Repr

/-- One of up to four slave meters connected to the meter (src/obis/mod.rs). -/
inductive Slave where
  | Slave1
  | Slave2
  | Slave3
  | Slave4
deriving DecidableEq, Repr

/-- The `as usize` cast of the `Tariff` discriminant. -/
def Tariff.idx : Tariff → Fin 2
  | .Tariff1 => 0
  | .Tariff2 => 1

/-- The `as usize` cast of the `Line` discriminant. -/
def Line.idx : Line → Fin 3
  | .Line1 => 0
  | .Line2 => 1
  | .Line3 => 2

/-- The `as usize` cast of the `Slave` discriminant. -/
def Slave.idx : Slave → Fin 4
  | .Slave1 => 0
  | .Slave2 => 1
  | .Slave3 => 2
  | .Slave4 => 3

/-- The channel match of the generic branch: digits 1–4 map to a slave. -/
def slaveOfNat (n : Nat) : Option Slave :=
  match n with
  | 1 => some Slave.Slave1
  | 2 => some Slave.Slave2
  | 3 => some Slave.Slave3
  | 4 => some Slave.Slave4
  | _ => none

namespace dsmr4

/-- OBIS data objects of the base (DSMR4) vocabulary (src/obis/dsmr4.rs). -/
inductive OBIS where
  | Version (s : List Char)
  | DateTime (t : TST)
  | EquipmentIdentifier (s : List Char)
  | MeterReadingTo (t : Tariff) (d : UFixedDouble)
  | MeterReadingBy (t : Tariff) (d : UFixedDouble)
  | TariffIndicator (s : List Char)
  | PowerDelivered (d : UFixedDouble)
  | PowerReceived (d : UFixedDouble)
  | PowerFailures (n : UFixedInteger)
  | LongPowerFailures (n : UFixedInteger)
  | PowerFailureEventLog
  | TextMessage
  | TextMessageCode
  | VoltageSags (l : Line) (n : UFixedInteger)
  | VoltageSwells (l : Line) (n : UFixedInteger)
  | InstantaneousCurrent (l : Line) (n : UFixedInteger)
  | InstantaneousActivePowerPlus (l : Line) (d : UFixedDouble)
  | InstantaneousActivePowerNeg (l : Line) (d : UFixedDouble)
  | SlaveDeviceType (s : Slave) (n : UFixedInteger)
  | SlaveEquipmentIdentifier (s : Slave) (o : List Char)
  | SlaveMeterReading (s : Slave) (t : TST) (d : UFixedDouble)
deriving DecidableEq, Repr

/-- The `0-x:24.2.1` two-field branch shared verbatim by the base table
(src/obis/dsmr4.rs lines 142-153): split the body at the second `(`, parse a
timestamp and then a width-8 decimal whose point is `9 - position_of_dot`
(a checked u8 subtraction). -/
def parseSlaveMR (channel : Slave) (body : List Char) : PRes OBIS :=
  match idxFrom body 1 with
  | none => none
  | some tail =>
    match tail.findIdx? (fun c => c = '(') with
    | none => perr Error.InvalidFormat
    | some e =>
      let time := body.take (e + 1)
      let measurement := body.drop (e + 1)
      match measurement.findIdx? (fun c => c = '.') with
      | none => perr Error.InvalidFormat
      | some period =>
        match TST.parse time with
        | Except.error er => perr er
        | Except.ok tst =>
          if 9 < period % 256 then none
          else
            match UFixedDouble.parse measurement 8 (9 - period % 256) with
            | none => none
            | some (Except.error er) => perr er
            | some (Except.ok d) => pok (OBIS.SlaveMeterReading channel tst d)

/-- The final `_` arm of the base table (src/obis/dsmr4.rs lines 114-160):
a reference outside the named table is matched against the generic
`0-x:...` channel pattern; every failure here is `UnknownObis`. -/
def parseChannel (reference body : List Char) : PRes OBIS :=
  if reference.length ≠ 10 ∨ reference.take 2 ≠ sZeroDash then perr Error.UnknownObis
  else
    match fromStrRadixC 10 u8Max ((reference.drop 2).take 1) with
    | none => perr Error.UnknownObis
    | some ch =>
      match slaveOfNat ch with
      | none => perr Error.UnknownObis
      | some channel =>
        let subreference := reference.drop 4
        if subreference = sSlaveDev then
          (UFixedInteger.parse body 3).map (OBIS.SlaveDeviceType channel) |> plift
        else if subreference = sSlaveEquip then
          (OctetString.parse_max body 96).map
            (Except.map (OBIS.SlaveEquipmentIdentifier channel))
        else if subreference = sSlaveMR then parseSlaveMR channel body
        else perr Error.UnknownObis

/-- `Parseable::parse` of the base layer (src/obis/dsmr4.rs). -/
def parse (reference body : List Char) : PRes OBIS :=
  if reference = rVersion then (OctetString.parse body 2).map OBIS.Version |> plift
  else if reference = rDateTime then (TST.parse body).map OBIS.DateTime |> plift
  else if reference = rEquipId then
    (OctetString.parse_max body 96).map (Except.map OBIS.EquipmentIdentifier)
  else if reference = rMrTo1 then
    (UFixedDouble.parse body 9 3).map (Except.map (OBIS.MeterReadingTo Tariff.Tariff1))
  else if reference = rMrTo2 then
    (UFixedDouble.parse body 9 3).map (Except.map (OBIS.MeterReadingTo Tariff.Tariff2))
  else if reference = rMrBy1 then
    (UFixedDouble.parse body 9 3).map (Except.map (OBIS.MeterReadingBy Tariff.Tariff1))
  else if reference = rMrBy2 then
    (UFixedDouble.parse body 9 3).map (Except.map (OBIS.MeterReadingBy Tariff.Tariff2))
  else if reference = rTariffInd then (OctetString.parse body 4).map OBIS.TariffIndicator |> plift
  else if reference = rPowerDel then
    (UFixedDouble.parse body 5 3).map (Except.map OBIS.PowerDelivered)
  else if reference = rPowerRec then
    (UFixedDouble.parse body 5 3).map (Except.map OBIS.PowerReceived)
  else if reference = rPowerFail then (UFixedInteger.parse body 5).map OBIS.PowerFailures |> plift
  else if reference = rLongPowerFail then
    (UFixedInteger.parse body 5).map OBIS.LongPowerFailures |> plift
  else if reference = rPFEventLog then pok OBIS.PowerFailureEventLog
  else if reference = rVSags1 then
    (UFixedInteger.parse body 5).map (OBIS.VoltageSags Line.Line1) |> plift
  else if reference = rVSags2 then
    (UFixedInteger.parse body 5).map (OBIS.VoltageSags Line.Line2) |> plift
  else if reference = rVSags3 then
    (UFixedInteger.parse body 5).map (OBIS.VoltageSags Line.Line3) |> plift
  else if reference = rVSwells1 then
    (UFixedInteger.parse body 5).map (OBIS.VoltageSwells Line.Line1) |> plift
  else if reference = rVSwells2 then
    (UFixedInteger.parse body 5).map (OBIS.VoltageSwells Line.Line2) |> plift
  else if reference = rVSwells3 then
    (UFixedInteger.parse body 5).map (OBIS.VoltageSwells Line.Line3) |> plift
  else if reference = rTextCode then pok OBIS.TextMessageCode
  else if reference = rTextMsg then pok OBIS.TextMessage
  else if reference = rCur1 then
    (UFixedInteger.parse body 3).map (OBIS.InstantaneousCurrent Line.Line1) |> plift
  else if reference = rCur2 then
    (UFixedInteger.parse body 3).map (OBIS.InstantaneousCurrent Line.Line2) |> plift
  else if reference = rCur3 then
    (UFixedInteger.parse body 3).map (OBIS.InstantaneousCurrent Line.Line3) |> plift
  else if reference = rAPP1 then
    (UFixedDouble.parse body 5 3).map (Except.map (OBIS.InstantaneousActivePowerPlus Line.Line1))
  else if reference = rAPP2 then
    (UFixedDouble.parse body 5 3).map (Except.map (OBIS.InstantaneousActivePowerPlus Line.Line2))
  else if reference = rAPP3 then
    (UFixedDouble.parse body 5 3).map (Except.map (OBIS.InstantaneousActivePowerPlus Line.Line3))
  else if reference = rAPN1 then
    (UFixedDouble.parse body 5 3).map (Except.map (OBIS.InstantaneousActivePowerNeg Line.Line1))
  else if reference = rAPN2 then
    (UFixedDouble.parse body 5 3).map (Except.map (OBIS.InstantaneousActivePowerNeg Line.Line2))
  else if reference = rAPN3 then
    (UFixedDouble.parse body 5 3).map (Except.map (OBIS.InstantaneousActivePowerNeg Line.Line3))
  else parseChannel reference body

/-- `Message::line` of the base layer (src/obis/dsmr4.rs). -/
def lineOf : OBIS → Option Line
  | .VoltageSags l _ => some l
  | .VoltageSwells l _ => some l
  | .InstantaneousCurrent l _ => some l
  | .InstantaneousActivePowerPlus l _ => some l
  | .InstantaneousActivePowerNeg l _ => some l
  | _ => none

/-- `Message::slave` of the base layer (src/obis/dsmr4.rs). -/
def slaveOf : OBIS → Option Slave
  | .SlaveDeviceType s _ => some s
  | .SlaveEquipmentIdentifier s _ => some s
  | .SlaveMeterReading s _ _ => some s
  | _ => none

end dsmr4

namespace dsmr5

/-- OBIS data objects of the extended (DSMR5) vocabulary (src/obis/dsmr5.rs). -/
inductive OBIS where
  | DSMR4 (o : dsmr4.OBIS)
  | InstantaneousVoltage (l : Line) (d : UFixedDouble)
deriving DecidableEq, Repr

/-- `OBIS::parse_specific` of the extended layer (src/obis/dsmr5.rs). -/
def parse_specific (reference body : List Char) : PRes OBIS :=
  if reference = rVolt1 then
    (UFixedDouble.parse body 4 1).map (Except.map (OBIS.InstantaneousVoltage Line.Line1))
  else if reference = rVolt2 then
    (UFixedDouble.parse body 4 1).map (Except.map (OBIS.InstantaneousVoltage Line.Line2))
  else if reference = rVolt3 then
    (UFixedDouble.parse body 4 1).map (Except.map (OBIS.InstantaneousVoltage Line.Line3))
  else perr Error.UnknownObis

/-- `Parseable::parse` of the extended layer (src/obis/dsmr5.rs): its own
table first, and on an unknown reference the base layer's result wrapped in
the `DSMR4` variant. -/
def parse (reference body : List Char) : PRes OBIS :=
  match parse_specific reference body with
  | none => none
  | some (Except.ok o) => some (Except.ok o)
  | some (Except.error Error.UnknownObis) =>
    (dsmr4.parse reference body).map (Except.map OBIS.DSMR4)
  | some (Except.error e) => some (Except.error e)

/-- `Message::line` of the extended layer (src/obis/dsmr5.rs). -/
def lineOf : OBIS → Option Line
  | .DSMR4 o => dsmr4.lineOf o
  | .InstantaneousVoltage l _ => some l

/-- `Message::slave` of the extended layer (src/obis/dsmr5.rs). -/
def slaveOf : OBIS → Option Slave
  | .DSMR4 o => dsmr4.slaveOf o
  | _ => none

end dsmr5

namespace eMucs

/-- OBIS data objects of the further-extended (e-MUCS) vocabulary
(src/obis/e_mucs.rs). -/
inductive OBIS where
  | DSMR5 (o : dsmr5.OBIS)
  | InstantaneousCurrent (l : Line) (d : UFixedDouble)
  | SlaveMeterReadingNonCorrected (s : Slave) (t : TST) (d : UFixedDouble)
  | SlaveValveState (s : Slave) (n : UFixedInteger)
  | BreakerState (n : UFixedInteger)
  | LimiterThreshold (d : UFixedDouble)
  | FuseSupervisionThreshold (n : UFixedInteger)
  | CurrentAverageDemand (d : UFixedDouble)
  | MaximumDemandMonth (t : TST) (d : UFixedDouble)
  | MaximumDemandYear
deriving DecidableEq, Repr

/-- The `0-x:24.2.3` branch of the e-MUCS table (src/obis/e_mucs.rs lines
88-99), identical in shape to the base layer's `24.2.1` branch. -/
def parseSlaveMRNC (channel : Slave) (body : List Char) : PRes OBIS :=
  match idxFrom body 1 with
  | none => none
  | some tail =>
    match tail.findIdx? (fun c => c = '(') with
    | none => perr Error.InvalidFormat
    | some e =>
      let time := body.take (e + 1)
      let measurement := body.drop (e + 1)
      match measurement.findIdx? (fun c => c = '.') with
      | none => perr Error.InvalidFormat
      | some period =>
        match TST.parse time with
        | Except.error er => perr er
        | Except.ok tst =>
          if 9 < period % 256 then none
          else
            match UFixedDouble.parse measurement 8 (9 - period % 256) with
            | none => none
            | some (Except.error er) => perr er
            | some (Except.ok d) => pok (OBIS.SlaveMeterReadingNonCorrected channel tst d)

/-- The `1-0:1.6.0` branch of the e-MUCS table (src/obis/e_mucs.rs lines
54-62): a timestamp field followed by a width-5, point-3 decimal. -/
def parseMaxDemandMonth (body : List Char) : PRes OBIS :=
  match idxFrom body 1 with
  | none => none
  | some tail =>
    match tail.findIdx? (fun c => c = '(') with
    | none => perr Error.InvalidFormat
    | some e =>
      let time := body.take (e + 1)
      let measurement := body.drop (e + 1)
      match TST.parse time with
      | Except.error er => perr er
      | Except.ok tst =>
        match UFixedDouble.parse measurement 5 3 with
        | none => none
        | some (Except.error er) => perr er
        | some (Except.ok d) => pok (OBIS.MaximumDemandMonth tst d)

/-- The final `_` arm of the e-MUCS table (src/obis/e_mucs.rs lines 101-137):
the generic `0-x:...` channel pattern of this layer; every failure here is
`UnknownObis`. -/
def parseChannel (reference body : List Char) : PRes OBIS :=
  if reference.length ≠ 10 ∨ reference.take 2 ≠ sZeroDash then perr Error.UnknownObis
  else
    match fromStrRadixC 10 u8Max ((reference.drop 2).take 1) with
    | none => perr Error.UnknownObis
    | some ch =>
      match slaveOfNat ch with
      | none => perr Error.UnknownObis
      | some channel =>
        let subreference := reference.drop 4
        if subreference = sValve then
          (UFixedInteger.parse body 1).map (OBIS.SlaveValveState channel) |> plift
        else if subreference = sSlaveMRNC then parseSlaveMRNC channel body
        else if subreference = sSlaveEquipE then
          (OctetString.parse_max body 96).map
            (Except.map (fun s =>
              OBIS.DSMR5 (dsmr5.OBIS.DSMR4 (dsmr4.OBIS.SlaveEquipmentIdentifier channel s))))
        else perr Error.UnknownObis

/-- `OBIS::parse_specific` of the further-extended layer (src/obis/e_mucs.rs). -/
def parse_specific (reference body : List Char) : PRes OBIS :=
  if reference = rEVersion then
    (OctetString.parse body 5).map (fun s => OBIS.DSMR5 (dsmr5.OBIS.DSMR4 (dsmr4.OBIS.Version s)))
      |> plift
  else if reference = rCur1 then
    (UFixedDouble.parse body 5 2).map (Except.map (OBIS.InstantaneousCurrent Line.Line1))
  else if reference = rCur2 then
    (UFixedDouble.parse body 5 2).map (Except.map (OBIS.InstantaneousCurrent Line.Line2))
  else if reference = rCur3 then
    (UFixedDouble.parse body 5 2).map (Except.map (OBIS.InstantaneousCurrent Line.Line3))
  else if reference = rBreaker then
    (UFixedInteger.parse body 1).map OBIS.BreakerState |> plift
  else if reference = rLimiter then
    (UFixedDouble.parse body 4 1).map (Except.map OBIS.LimiterThreshold)
  else if reference = rFuse then
    (UFixedInteger.parse body 3).map OBIS.FuseSupervisionThreshold |> plift
  else if reference = rAvgDemand then
    (UFixedDouble.parse body 5 3).map (Except.map OBIS.CurrentAverageDemand)
  else if reference = rMaxDemandMonth then parseMaxDemandMonth body
  else if reference = rMaxDemandYear then pok OBIS.MaximumDemandYear
  else parseChannel reference body

/-- `Parseable::parse` of the further-extended layer (src/obis/e_mucs.rs). -/
def parse (reference body : List Char) : PRes OBIS :=
  match parse_specific reference body with
  | none => none
  | some (Except.ok o) => some (Except.ok o)
  | some (Except.error Error.UnknownObis) =>
    (dsmr5.parse reference body).map (Except.map OBIS.DSMR5)
  | some (Except.error e) => some (Except.error e)

/-- `Message::line` of the further-extended layer (src/obis/e_mucs.rs). -/
def lineOf : OBIS → Option Line
  | .DSMR5 o => dsmr5.lineOf o
  | .InstantaneousCurrent l _ => some l
  | _ => none

/-- `Message::slave` of the further-extended layer (src/obis/e_mucs.rs). -/
def slaveOf : OBIS → Option Slave
  | .DSMR5 o => dsmr5.slaveOf o
  | .SlaveMeterReadingNonCorrected s _ _ => some s
  | .SlaveValveState s _ => some s
  | _ => none

end eMucs

/-- `Parseable::parse_line` (src/obis/mod.rs): split a body line at the first
`(` into reference and remainder. -/
def parseLineWith {α : Type} (p : List Char → List Char → PRes α) (line : List Char) : PRes α :=
  match line.findIdx? (fun c => c = '(') with
  | none => perr Error.InvalidFormat
  | some k => p (line.take k) (line.drop k)

namespace obisOld

/-- OBIS data objects of the monolithic dispatcher (src/obis.rs). -/
inductive OBIS where
  | Version (s : List Char)
  | DateTime (t : TST)
  | EquipmentIdentifier (s : List Char)
  | MeterReadingTo (t : Tariff) (d : UFixedDouble)
  | MeterReadingBy (t : Tariff) (d : UFixedDouble)
  | TariffIndicator (s : List Char)
  | PowerDelivered (d : UFixedDouble)
  | PowerReceived (d : UFixedDouble)
  | PowerFailures (n : UFixedInteger)
  | LongPowerFailures (n : UFixedInteger)
  | PowerFailureEventLog
  | TextMessage
  | VoltageSags (l : Line) (n : UFixedInteger)
  | VoltageSwells (l : Line) (n : UFixedInteger)
  | InstantaneousVoltage (l : Line) (d : UFixedDouble)
  | InstantaneousCurrent (l : Line) (n : UFixedInteger)
  | InstantaneousActivePowerPlus (l : Line) (d : UFixedDouble)
  | InstantaneousActivePowerNeg (l : Line) (d : UFixedDouble)
  | SlaveDeviceType (s : Slave) (n : UFixedInteger)
  | SlaveEquipmentIdentifier (s : Slave) (o : List Char)
  | SlaveMeterReading (s : Slave) (t : TST) (d : UFixedDouble)
deriving DecidableEq, Repr

/-- The `0-x:24.2.1` branch of the monolithic dispatcher (src/obis.rs lines
179-190). -/
def parseSlaveMR (channel : Slave) (body : List Char) : PRes OBIS :=
  match idxFrom body 1 with
  | none => none
  | some tail =>
    match tail.findIdx? (fun c => c = '(') with
    | none => perr Error.InvalidFormat
    | some e =>
      let time := body.take (e + 1)
      let measurement := body.drop (e + 1)
      match measurement.findIdx? (fun c => c = '.') with
      | none => perr Error.InvalidFormat
      | some period =>
        match TST.parse time with
        | Except.error er => perr er
        | Except.ok tst =>
          if 9 < period % 256 then none
          else
            match UFixedDouble.parse measurement 8 (9 - period % 256) with
            | none => none
            | some (Except.error er) => perr er
            | some (Except.ok d) => pok (OBIS.SlaveMeterReading channel tst d)

/-- The final `_` arm of the monolithic dispatcher (src/obis.rs lines
151-178): the generic `0-x:...` channel pattern; here a channel digit that
fails to parse or falls outside 1–4 is an `InvalidFormat` error (lines
157-167), unlike the layered dispatchers. -/
def parseChannel (reference body : List Char) : PRes OBIS :=
  if reference.length ≠ 10 ∨ reference.take 2 ≠ sZeroDash then perr Error.UnknownObis
  else
    match fromStrRadixC 10 u8Max ((reference.drop 2).take 1) with
    | none => perr Error.InvalidFormat
    | some ch =>
      match slaveOfNat ch with
      | none => perr Error.InvalidFormat
      | some channel =>
        let subreference := reference.drop 4
        if subreference = sSlaveDev then
          (UFixedInteger.parse body 3).map (OBIS.SlaveDeviceType channel) |> plift
        else if subreference = sSlaveEquip then
          (OctetString.parse_max body 96).map
            (Except.map (OBIS.SlaveEquipmentIdentifier channel))
        else if subreference = sSlaveMR then parseSlaveMR channel body
        else perr Error.UnknownObis

/-- `OBIS::parse` of the monolithic dispatcher (src/obis.rs), with the body
already split off (the reference/body split of lines 62-63 is
`parseLineWith`).  Note that in this file a channel digit that fails to parse
or falls outside 1–4 is an `InvalidFormat` error (lines 157-167), unlike the
layered dispatchers, and that the `1-0:41.7.0` and `1-0:22.7.0` arms carry
the line indices `Line1` and `Line2` exactly as written in the source. -/
def parse (reference body : List Char) : PRes OBIS :=
  if reference = rVersion then (OctetString.parse body 2).map OBIS.Version |> plift
  else if reference = rDateTime then (TST.parse body).map OBIS.DateTime |> plift
  else if reference = rEquipId then
    (OctetString.parse_max body 96).map (Except.map OBIS.EquipmentIdentifier)
  else if reference = rMrTo1 then
    (UFixedDouble.parse body 9 3).map (Except.map (OBIS.MeterReadingTo Tariff.Tariff1))
  else if reference = rMrTo2 then
    (UFixedDouble.parse body 9 3).map (Except.map (OBIS.MeterReadingTo Tariff.Tariff2))
  else if reference = rMrBy1 then
    (UFixedDouble.parse body 9 3).map (Except.map (OBIS.MeterReadingBy Tariff.Tariff1))
  else if reference = rMrBy2 then
    (UFixedDouble.parse body 9 3).map (Except.map (OBIS.MeterReadingBy Tariff.Tariff2))
  else if reference = rTariffInd then (OctetString.parse body 4).map OBIS.TariffIndicator |> plift
  else if reference = rPowerDel then
    (UFixedDouble.parse body 5 3).map (Except.map OBIS.PowerDelivered)
  else if reference = rPowerRec then
    (UFixedDouble.parse body 5 3).map (Except.map OBIS.PowerReceived)
  else if reference = rPowerFail then (UFixedInteger.parse body 5).map OBIS.PowerFailures |> plift
  else if reference = rLongPowerFail then
    (UFixedInteger.parse body 5).map OBIS.LongPowerFailures |> plift
  else if reference = rPFEventLog then pok OBIS.PowerFailureEventLog
  else if reference = rVSags1 then
    (UFixedInteger.parse body 5).map (OBIS.VoltageSags Line.Line1) |> plift
  else if reference = rVSags2 then
    (UFixedInteger.parse body 5).map (OBIS.VoltageSags Line.Line2) |> plift
  else if reference = rVSags3 then
    (UFixedInteger.parse body 5).map (OBIS.VoltageSags Line.Line3) |> plift
  else if reference = rVSwells1 then
    (UFixedInteger.parse body 5).map (OBIS.VoltageSwells Line.Line1) |> plift
  else if reference = rVSwells2 then
    (UFixedInteger.parse body 5).map (OBIS.VoltageSwells Line.Line2) |> plift
  else if reference = rVSwells3 then
    (UFixedInteger.parse body 5).map (OBIS.VoltageSwells Line.Line3) |> plift
  else if reference = rTextMsg then pok OBIS.TextMessage
  else if reference = rVolt1 then
    (UFixedDouble.parse body 4 1).map (Except.map (OBIS.InstantaneousVoltage Line.Line1))
  else if reference = rVolt2 then
    (UFixedDouble.parse body 4 1).map (Except.map (OBIS.InstantaneousVoltage Line.Line2))
  else if reference = rVolt3 then
    (UFixedDouble.parse body 4 1).map (Except.map (OBIS.InstantaneousVoltage Line.Line3))
  else if reference = rCur1 then
    (UFixedInteger.parse body 3).map (OBIS.InstantaneousCurrent Line.Line1) |> plift
  else if reference = rCur2 then
    (UFixedInteger.parse body 3).map (OBIS.InstantaneousCurrent Line.Line2) |> plift
  else if reference = rCur3 then
    (UFixedInteger.parse body 3).map (OBIS.InstantaneousCurrent Line.Line3) |> plift
  else if reference = rAPP1 then
    (UFixedDouble.parse body 5 3).map (Except.map (OBIS.InstantaneousActivePowerPlus Line.Line1))
  else if reference = rAPP2 then
    (UFixedDouble.parse body 5 3).map (Except.map (OBIS.InstantaneousActivePowerPlus Line.Line1))
  else if reference = rAPP3 then
    (UFixedDouble.parse body 5 3).map (Except.map (OBIS.InstantaneousActivePowerPlus Line.Line3))
  else if reference = rAPN1 then
    (UFixedDouble.parse body 5 3).map (Except.map (OBIS.InstantaneousActivePowerNeg Line.Line2))
  else if reference = rAPN2 then
    (UFixedDouble.parse body 5 3).map (Except.map (OBIS.InstantaneousActivePowerNeg Line.Line2))
  else if reference = rAPN3 then
    (UFixedDouble.parse body 5 3).map (Except.map (OBIS.InstantaneousActivePowerNeg Line.Line3))
  else parseChannel reference body

end obisOld

/-! ## Table-reference lists and table-miss lemmas for the dispatchers -/

/-- The references of the named table of the base layer (src/obis/dsmr4.rs),
in source order. -/
def dsmr4TableRefs : List (List Char) :=
  [rVersion, rDateTime, rEquipId, rMrTo1, rMrTo2, rMrBy1, rMrBy2, rTariffInd, rPowerDel,
   rPowerRec, rPowerFail, rLongPowerFail, rPFEventLog, rVSags1, rVSags2, rVSags3, rVSwells1,
   rVSwells2, rVSwells3, rTextCode, rTextMsg, rCur1, rCur2, rCur3, rAPP1, rAPP2, rAPP3, rAPN1,
   rAPN2, rAPN3]

/-- The references of the own table of the extended layer
(src/obis/dsmr5.rs). -/
def dsmr5TableRefs : List (List Char) :=
  [rVolt1, rVolt2, rVolt3]

/-- The references of the own table of the e-MUCS layer
(src/obis/e_mucs.rs), in source order. -/
def eMucsTableRefs : List (List Char) :=
  [rEVersion, rCur1, rCur2, rCur3, rBreaker, rLimiter, rFuse, rAvgDemand, rMaxDemandMonth,
   rMaxDemandYear]

/-- The references of the named table of the monolithic dispatcher
(src/obis.rs), in source order. -/
def obisOldTableRefs : List (List Char) :=
  [rVersion, rDateTime, rEquipId, rMrTo1, rMrTo2, rMrBy1, rMrBy2, rTariffInd, rPowerDel,
   rPowerRec, rPowerFail, rLongPowerFail, rPFEventLog, rVSags1, rVSags2, rVSags3, rVSwells1,
   rVSwells2, rVSwells3, rTextMsg, rVolt1, rVolt2, rVolt3, rCur1, rCur2, rCur3, rAPP1, rAPP2,
   rAPP3, rAPN1, rAPN2, rAPN3]

/-- All references named by any of the four dispatch tables. -/
def allTableRefs : List (List Char) :=
  obisOldTableRefs ++ dsmr4TableRefs ++ dsmr5TableRefs ++ eMucsTableRefs

/-- `findIdx?` on an append whose left part has no hit and whose right part
starts with one finds exactly the boundary index. -/
theorem findIdx?_append_cons {α : Type} (p : α → Bool) (l t : List α) (x : α)
    (hl : ∀ y ∈ l, p y = false) (hx : p x = true) :
    (l ++ x :: t).findIdx? p = some l.length := by
  induction l with
  | nil => simp [List.findIdx?_cons, hx]
  | cons a m ih =>
    rw [List.cons_append, List.findIdx?_cons, hl a (List.mem_cons_self a m),
      List.findIdx?_succ, ih (fun y hy => hl y (List.mem_cons_of_mem a hy))]
    simp

/-- `parse_line` splits at the first `(` when its index is known. -/
theorem parseLineWith_split {α : Type} (p : List Char → List Char → PRes α)
    (line : List Char) (k : Nat) (hf : line.findIdx? (fun c => c = '(') = some k) :
    parseLineWith p line = p (line.take k) (line.drop k) := by
  unfold parseLineWith
  rw [hf]

/-- A reference hitting none of the base table's entries falls through to the
generic channel branch (src/obis/dsmr4.rs). -/
theorem dsmr4_parse_not_table (reference body : List Char)
    (h : ∀ t ∈ dsmr4TableRefs, reference ≠ t) :
    dsmr4.parse reference body = dsmr4.parseChannel reference body := by
  unfold dsmr4.parse
  rw [if_neg (h rVersion (by decide)), if_neg (h rDateTime (by decide)),
    if_neg (h rEquipId (by decide)), if_neg (h rMrTo1 (by decide)),
    if_neg (h rMrTo2 (by decide)), if_neg (h rMrBy1 (by decide)),
    if_neg (h rMrBy2 (by decide)), if_neg (h rTariffInd (by decide)),
    if_neg (h rPowerDel (by decide)), if_neg (h rPowerRec (by decide)),
    if_neg (h rPowerFail (by decide)), if_neg (h rLongPowerFail (by decide)),
    if_neg (h rPFEventLog (by decide)), if_neg (h rVSags1 (by decide)),
    if_neg (h rVSags2 (by decide)), if_neg (h rVSags3 (by decide)),
    if_neg (h rVSwells1 (by decide)), if_neg (h rVSwells2 (by decide)),
    if_neg (h rVSwells3 (by decide)), if_neg (h rTextCode (by decide)),
    if_neg (h rTextMsg (by decide)), if_neg (h rCur1 (by decide)),
    if_neg (h rCur2 (by decide)), if_neg (h rCur3 (by decide)), if_neg (h rAPP1 (by decide)),
    if_neg (h rAPP2 (by decide)), if_neg (h rAPP3 (by decide)), if_neg (h rAPN1 (by decide)),
    if_neg (h rAPN2 (by decide)), if_neg (h rAPN3 (by decide))]

/-- A reference hitting none of the monolithic table's entries falls through
to its generic channel branch (src/obis.rs). -/
theorem obisOld_parse_not_table (reference body : List Char)
    (h : ∀ t ∈ obisOldTableRefs, reference ≠ t) :
    obisOld.parse reference body = obisOld.parseChannel reference body := by
  unfold obisOld.parse
  rw [if_neg (h rVersion (by decide)), if_neg (h rDateTime (by decide)),
    if_neg (h rEquipId (by decide)), if_neg (h rMrTo1 (by decide)),
    if_neg (h rMrTo2 (by decide)), if_neg (h rMrBy1 (by decide)),
    if_neg (h rMrBy2 (by decide)), if_neg (h rTariffInd (by decide)),
    if_neg (h rPowerDel (by decide)), if_neg (h rPowerRec (by decide)),
    if_neg (h rPowerFail (by decide)), if_neg (h rLongPowerFail (by decide)),
    if_neg (h rPFEventLog (by decide)), if_neg (h rVSags1 (by decide)),
    if_neg (h rVSags2 (by decide)), if_neg (h rVSags3 (by decide)),
    if_neg (h rVSwells1 (by decide)), if_neg (h rVSwells2 (by decide)),
    if_neg (h rVSwells3 (by decide)), if_neg (h rTextMsg (by decide)),
    if_neg (h rVolt1 (by decide)), if_neg (h rVolt2 (by decide)),
    if_neg (h rVolt3 (by decide)), if_neg (h rCur1 (by decide)), if_neg (h rCur2 (by decide)),
    if_neg (h rCur3 (by decide)), if_neg (h rAPP1 (by decide)), if_neg (h rAPP2 (by decide)),
    if_neg (h rAPP3 (by decide)), if_neg (h rAPN1 (by decide)), if_neg (h rAPN2 (by decide)),
    if_neg (h rAPN3 (by decide))]

/-- A reference hitting none of the dsmr5-specific entries makes the
extended layer return the base layer's result wrapped in `DSMR4`
(src/obis/dsmr5.rs). -/
theorem dsmr5_parse_not_table (reference body : List Char)
    (h : ∀ t ∈ dsmr5TableRefs, reference ≠ t) :
    dsmr5.parse reference body
      = (dsmr4.parse reference body).map (Except.map dsmr5.OBIS.DSMR4) := by
  have hsp : dsmr5.parse_specific reference body
      = some (Except.error Error.UnknownObis) := by
    unfold dsmr5.parse_specific
    rw [if_neg (h rVolt1 (by decide)), if_neg (h rVolt2 (by decide)),
      if_neg (h rVolt3 (by decide))]
    rfl
  unfold dsmr5.parse
  rw [hsp]

/-- A reference hitting none of the e-MUCS-specific entries falls through to
the e-MUCS generic channel branch (src/obis/e_mucs.rs). -/
theorem eMucs_parse_specific_not_table (reference body : List Char)
    (h : ∀ t ∈ eMucsTableRefs, reference ≠ t) :
    eMucs.parse_specific reference body = eMucs.parseChannel reference body := by
  unfold eMucs.parse_specific
  rw [if_neg (h rEVersion (by decide)), if_neg (h rCur1 (by decide)),
    if_neg (h rCur2 (by decide)), if_neg (h rCur3 (by decide)),
    if_neg (h rBreaker (by decide)), if_neg (h rLimiter (by decide)),
    if_neg (h rFuse (by decide)), if_neg (h rAvgDemand (by decide)),
    if_neg (h rMaxDemandMonth (by decide)), if_neg (h rMaxDemandYear (by decide))]

/-! ## Claims C2 and C3: dispatcher scenarios -/

/-- The body line `1-0:1.8.1(00576.239*kWh)` stated by the spec scenario. -/
def c2LineClaimed : List Char :=
  ['1', '-', '0', ':', '1', '.', '8', '.', '1', '(', '0', '0', '5', '7', '6', '.', '2', '3', '9',
   '*', 'k', 'W', 'h', ')']

/-- The corresponding line with the six integer digits the width-9 recipe
requires, as in the repository's isk.txt test data: `1-0:1.8.1(000576.239*kWh)`. -/
def c2LineActual : List Char :=
  ['1', '-', '0', ':', '1', '.', '8', '.', '1', '(', '0', '0', '0', '5', '7', '6', '.', '2', '3',
   '9', '*', 'k', 'W', 'h', ')']

/-- C2 (counterexample): the line `1-0:1.8.1(00576.239*kWh)` stated by the
claim does not decode at all: its value field has only five integer digits,
so the width-9 split puts the decimal point inside the integer part and the
dispatcher reports `InvalidFormat` instead of producing mantissa 576239. -/
theorem c2_line_as_stated_fails :
    parseLineWith dsmr4.parse c2LineClaimed = perr Error.InvalidFormat ∧
    parseLineWith dsmr4.parse c2LineClaimed
      ≠ pok (dsmr4.OBIS.MeterReadingTo Tariff.Tariff1 ⟨576239, 3⟩) := by
  exact ⟨rfl, by decide⟩

/-- C2 (amended): the body line `1-0:1.8.1(000576.239*kWh)` (six integer
digits, as in the repository's own test telegram), parsed through the base
dispatcher's width-9 point-3 entry, decodes to the tariff-1 meter reading
with mantissa 576239 and point 3, whose conversion to a floating value is
576.239. -/
theorem c2_decode_amended :
    parseLineWith dsmr4.parse c2LineActual
      = pok (dsmr4.OBIS.MeterReadingTo Tariff.Tariff1 ⟨576239, 3⟩) ∧
    UFixedDouble.toFloat ⟨576239, 3⟩ = (576239 : ℚ) / 1000 ∧
    (576239 : ℚ) / 1000 = 576.239 := by
  refine ⟨rfl, ?_, by norm_num⟩
  simp [UFixedDouble.toFloat]
  norm_num

/-- The body line `5-0:24.2.1(0123)` of the C3 scenario. -/
def c3Line : List Char :=
  ['5', '-', '0', ':', '2', '4', '.', '2', '.', '1', '(', '0', '1', '2', '3', ')']

/-- C3 (counterexample): the reference `5-0:24.2.1` does not begin with `0-`,
so both the layered base dispatcher and the monolithic dispatcher reject it
with `UnknownObis`, not with the `InvalidFormat` the claim states. -/
theorem c3_channel_example_not_format :
    parseLineWith dsmr4.parse c3Line = perr Error.UnknownObis ∧
    parseLineWith obisOld.parse c3Line = perr Error.UnknownObis ∧
    Error.UnknownObis ≠ Error.InvalidFormat := by
  exact ⟨rfl, rfl, by decide⟩

/-- C3 (amended): for every reference of exactly 10 characters that begins
with `0-`, carries a channel digit outside 1–4 at offset 2, and is none of
the dispatch tables' own references, the monolithic dispatcher (src/obis.rs)
fails with `InvalidFormat`, while the layered dispatchers (src/obis/dsmr4.rs
and src/obis/e_mucs.rs) instead report `UnknownObis`; the reference
`5-0:24.2.1`, which does not begin with `0-`, is `UnknownObis` in all of
them (theorem `c3_channel_example_not_format`). -/
theorem c3_channel_out_of_range (c : Char) (hc : c ∈ ['0', '5', '6', '7', '8', '9'])
    (sub rest : List Char) (hlen : sub.length = 7) (hpar : '(' ∉ sub)
    (hno : ∀ t ∈ allTableRefs, ('0' :: '-' :: c :: sub) ≠ t) :
    parseLineWith obisOld.parse (('0' :: '-' :: c :: sub) ++ '(' :: rest)
      = perr Error.InvalidFormat ∧
    parseLineWith dsmr4.parse (('0' :: '-' :: c :: sub) ++ '(' :: rest)
      = perr Error.UnknownObis ∧
    parseLineWith eMucs.parse (('0' :: '-' :: c :: sub) ++ '(' :: rest)
      = perr Error.UnknownObis := by
  have hcp : c ≠ '(' := by fin_cases hc <;> decide
  have hr10 : ('0' :: '-' :: c :: sub).length = 10 := by
    simp [hlen]
  have hnp : ∀ y ∈ ('0' :: '-' :: c :: sub), (fun ch => decide (ch = '(')) y = false := by
    intro y hy
    simp only [List.mem_cons] at hy
    rcases hy with rfl | rfl | rfl | hy
    · decide
    · decide
    · simp [hcp]
    · simp only [decide_eq_false_iff_not]
      exact fun h => hpar (h ▸ hy)
  have hfind : (('0' :: '-' :: c :: sub) ++ '(' :: rest).findIdx? (fun ch => ch = '(')
      = some 10 := by
    rw [findIdx?_append_cons _ _ rest '(' hnp (by decide)]
    rw [hr10]
  have htk : (('0' :: '-' :: c :: sub) ++ '(' :: rest).take 10 = '0' :: '-' :: c :: sub :=
    List.take_left' hr10
  have hdp : (('0' :: '-' :: c :: sub) ++ '(' :: rest).drop 10 = '(' :: rest :=
    List.drop_left' hr10
  have hshape : ¬(('0' :: '-' :: c :: sub).length ≠ 10 ∨
      ('0' :: '-' :: c :: sub).take 2 ≠ sZeroDash) := by
    rw [not_or]
    exact ⟨fun h => h hr10, fun h => h rfl⟩
  have hch : ∃ v, fromStrRadixC 10 u8Max [c] = some v ∧ slaveOfNat v = none := by
    fin_cases hc
    · exact ⟨0, rfl, rfl⟩
    · exact ⟨5, rfl, rfl⟩
    · exact ⟨6, rfl, rfl⟩
    · exact ⟨7, rfl, rfl⟩
    · exact ⟨8, rfl, rfl⟩
    · exact ⟨9, rfl, rfl⟩
  obtain ⟨v, hv1, hv2⟩ := hch
  have hnoOld : ∀ t ∈ obisOldTableRefs, ('0' :: '-' :: c :: sub) ≠ t := fun t ht =>
    hno t (List.mem_append_left _ (List.mem_append_left _ (List.mem_append_left _ ht)))
  have hno4 : ∀ t ∈ dsmr4TableRefs, ('0' :: '-' :: c :: sub) ≠ t := fun t ht =>
    hno t (List.mem_append_left _ (List.mem_append_left _ (List.mem_append_right _ ht)))
  have hno5 : ∀ t ∈ dsmr5TableRefs, ('0' :: '-' :: c :: sub) ≠ t := fun t ht =>
    hno t (List.mem_append_left _ (List.mem_append_right _ ht))
  have hnoE : ∀ t ∈ eMucsTableRefs, ('0' :: '-' :: c :: sub) ≠ t := fun t ht =>
    hno t (List.mem_append_right _ ht)
  have hOld : obisOld.parse ('0' :: '-' :: c :: sub) ('(' :: rest)
      = some (Except.error Error.InvalidFormat) := by
    rw [obisOld_parse_not_table _ _ hnoOld]
    unfold obisOld.parseChannel
    rw [if_neg hshape,
      show List.take 1 (List.drop 2 ('0' :: '-' :: c :: sub)) = [c] from rfl, hv1]
    simp only []
    rw [hv2]
    rfl
  have h4 : dsmr4.parse ('0' :: '-' :: c :: sub) ('(' :: rest)
      = some (Except.error Error.UnknownObis) := by
    rw [dsmr4_parse_not_table _ _ hno4]
    unfold dsmr4.parseChannel
    rw [if_neg hshape,
      show List.take 1 (List.drop 2 ('0' :: '-' :: c :: sub)) = [c] from rfl, hv1]
    simp only []
    rw [hv2]
    rfl
  have h5 : dsmr5.parse ('0' :: '-' :: c :: sub) ('(' :: rest)
      = some (Except.error Error.UnknownObis) := by
    rw [dsmr5_parse_not_table _ _ hno5, h4]
    rfl
  have hE5 : eMucs.parse_specific ('0' :: '-' :: c :: sub) ('(' :: rest)
      = some (Except.error Error.UnknownObis) := by
    rw [eMucs_parse_specific_not_table _ _ hnoE]
    unfold eMucs.parseChannel
    rw [if_neg hshape,
      show List.take 1 (List.drop 2 ('0' :: '-' :: c :: sub)) = [c] from rfl, hv1]
    simp only []
    rw [hv2]
    rfl
  have hE : eMucs.parse ('0' :: '-' :: c :: sub) ('(' :: rest)
      = some (Except.error Error.UnknownObis) := by
    unfold eMucs.parse
    rw [hE5]
    simp only []
    rw [h5]
    rfl
  refine ⟨?_, ?_, ?_⟩
  · rw [parseLineWith_split _ _ 10 hfind, htk, hdp, hOld]
    rfl
  · rw [parseLineWith_split _ _ 10 hfind, htk, hdp, h4]
    rfl
  · rw [parseLineWith_split _ _ 10 hfind, htk, hdp, hE]
    rfl

/-- Witness for `c3_channel_out_of_range` at channel digit 5, the
subreference `:24.2.1` and the body `(0123)`. -/
theorem c3_channel_out_of_range_witness :
    parseLineWith obisOld.parse
        (('0' :: '-' :: '5' :: [':', '2', '4', '.', '2', '.', '1'])
          ++ '(' :: ['0', '1', '2', '3', ')'])
      = perr Error.InvalidFormat ∧
    parseLineWith dsmr4.parse
        (('0' :: '-' :: '5' :: [':', '2', '4', '.', '2', '.', '1'])
          ++ '(' :: ['0', '1', '2', '3', ')'])
      = perr Error.UnknownObis ∧
    parseLineWith eMucs.parse
        (('0' :: '-' :: '5' :: [':', '2', '4', '.', '2', '.', '1'])
          ++ '(' :: ['0', '1', '2', '3', ')'])
      = perr Error.UnknownObis :=
  c3_channel_out_of_range '5' (by decide) [':', '2', '4', '.', '2', '.', '1']
    ['0', '1', '2', '3', ')'] (by decide) (by decide) (by decide)

/-! ## Claim C6: vocabulary layering -/

/-- The references defined in the base (dsmr4) table and not overridden by
the dsmr5 or e-MUCS tables (`1-0:31.7.0`, `1-0:51.7.0` and `1-0:71.7.0` are
redefined by the e-MUCS layer and therefore excluded). -/
def baseOnlyRefs : List (List Char) :=
  [rVersion, rDateTime, rEquipId, rMrTo1, rMrTo2, rMrBy1, rMrBy2, rTariffInd, rPowerDel,
   rPowerRec, rPowerFail, rLongPowerFail, rPFEventLog, rVSags1, rVSags2, rVSags3, rVSwells1,
   rVSwells2, rVSwells3, rTextCode, rTextMsg, rAPP1, rAPP2, rAPP3, rAPN1, rAPN2, rAPN3]

/-- C6: every reference defined only in the base (dsmr4) table stays
reachable through the higher layers: the dsmr5 dispatcher returns exactly
the base result wrapped in its `DSMR4` variant, the e-MUCS dispatcher
returns it wrapped again in its `DSMR5` variant (`DSMR5 (DSMR4 ...)`), for
every value body; and a reference recognized by no layer (`9-9:9.9.9`)
yields `UnknownObis` from the outermost dispatcher. -/
theorem c6_layer_fallback (reference : List Char) (href : reference ∈ baseOnlyRefs)
    (body : List Char) :
    dsmr5.parse reference body
      = (dsmr4.parse reference body).map (Except.map dsmr5.OBIS.DSMR4) ∧
    eMucs.parse reference body
      = ((dsmr4.parse reference body).map (Except.map dsmr5.OBIS.DSMR4)).map
          (Except.map eMucs.OBIS.DSMR5) ∧
    eMucs.parse rUnknown9 body = perr Error.UnknownObis := by
  fin_cases href <;> exact ⟨rfl, rfl, rfl⟩

/-- Witness for `c6_layer_fallback` at the base-only reference `1-3:0.2.8`
and the body `(42)`. -/
theorem c6_layer_fallback_witness :
    dsmr5.parse rVersion ['(', '4', '2', ')']
      = (dsmr4.parse rVersion ['(', '4', '2', ')']).map (Except.map dsmr5.OBIS.DSMR4) ∧
    eMucs.parse rVersion ['(', '4', '2', ')']
      = ((dsmr4.parse rVersion ['(', '4', '2', ')']).map (Except.map dsmr5.OBIS.DSMR4)).map
          (Except.map eMucs.OBIS.DSMR5) ∧
    eMucs.parse rUnknown9 ['(', '4', '2', ')'] = perr Error.UnknownObis :=
  c6_layer_fallback rVersion (by decide) ['(', '4', '2', ')']

/-! ## Claim C10: the `parse_max` underflow -/

/-- C10: `OctetString::parse_max` panics (the `find(')') - 1` subtraction
underflows) exactly when the first character of the body slice is `)`; for
every other body it returns a `Result`.  In particular it is total whenever
the first `)` occurs at index at least one, as when the body begins with
`(`. -/
theorem c10_parse_max_underflow :
    (∀ (body : List Char) (m : Nat), body.head? = some ')' →
      OctetString.parse_max body m = none) ∧
    (∀ (body : List Char) (m : Nat), body.head? ≠ some ')' →
      ∃ r, OctetString.parse_max body m = some r) := by
  constructor
  · intro body m h
    cases body with
    | nil => simp at h
    | cons a t =>
      simp only [List.head?_cons, Option.some.injEq] at h
      subst h
      simp [OctetString.parse_max, List.findIdx?_cons]
  · intro body m h
    cases body with
    | nil => exact ⟨Except.error Error.InvalidFormat, rfl⟩
    | cons a t =>
      have ha : a ≠ ')' := by
        intro h2
        exact h (by simp [h2])
      rw [OctetString.parse_max, List.findIdx?_cons]
      simp only [ha, decide_eq_true_eq, if_neg, not_false_eq_true]
      rw [List.findIdx?_succ]
      cases hf : (t.findIdx? (fun c => c = ')')) with
      | none => exact ⟨_, rfl⟩
      | some k =>
        simp only [Option.map_some']
        split
        · omega
        · split
          · exact ⟨_, rfl⟩
          · exact ⟨_, rfl⟩

/-- Witness for `c10_parse_max_underflow`: the body `)x` panics, the body
`(AB)` (first `)` at index 3) returns a value. -/
theorem c10_parse_max_underflow_witness :
    OctetString.parse_max [')', 'x'] 96 = none ∧
    ∃ r, OctetString.parse_max ['(', 'A', 'B', ')'] 96 = some r :=
  ⟨c10_parse_max_underflow.1 [')', 'x'] 96 (by decide),
   c10_parse_max_underflow.2 ['(', 'A', 'B', ')'] 96 (by decide)⟩

/-! ## Claim C5: the timestamp decoder -/

/-- The timestamp body `(190320181403W)` of the C5 scenario. -/
def tstExample : List Char :=
  ['(', '1', '9', '0', '3', '2', '0', '1', '8', '1', '4', '0', '3', 'W', ')']

/-- C5: `TST::parse` succeeds exactly on bodies of length at least 15 whose
six two-character fields at offsets 1, 3, 5, 7, 9 and 11 parse as base-10
integers and whose character at offset 13 is `S` or `W`; every failure is the
`InvalidFormat` error; and `(190320181403W)` decodes to
year 19, month 3, day 20, hour 18, minute 14, second 3, dst = false. -/
theorem c5_tst_characterisation (body : List Char) :
    ((∃ t, TST.parse body = Except.ok t) ↔
      (15 ≤ body.length ∧
       (parsetwo body 1).isSome ∧ (parsetwo body 3).isSome ∧ (parsetwo body 5).isSome ∧
       (parsetwo body 7).isSome ∧ (parsetwo body 9).isSome ∧ (parsetwo body 11).isSome ∧
       ((body.drop 13).take 1 = ['S'] ∨ (body.drop 13).take 1 = ['W']))) ∧
    (∀ e, TST.parse body = Except.error e → e = Error.InvalidFormat) ∧
    TST.parse tstExample = Except.ok ⟨19, 3, 20, 18, 14, 3, false⟩ := by
  refine ⟨?_, ?_, by decide⟩
  · have hlen : 15 ≤ body.length ↔ ¬ body.length < 15 := by omega
    rw [hlen]
    unfold TST.parse
    by_cases h15 : body.length < 15
    · simp [h15]
    · simp only [if_neg h15]
      cases h1 : parsetwo body 1 <;>
        cases h3 : parsetwo body 3 <;>
          cases h5 : parsetwo body 5 <;>
            cases h7 : parsetwo body 7 <;>
              cases h9 : parsetwo body 9 <;>
                cases h11 : parsetwo body 11 <;>
                  simp [h15, h1, h3, h5, h7, h9, h11] <;>
                    (try (by_cases hS : (body.drop 13).take 1 = ['S'] <;>
                          by_cases hW : (body.drop 13).take 1 = ['W'] <;>
                            simp [hS, hW]))
  · intro e h
    unfold TST.parse at h
    repeat' split at h
    all_goals first
      | (injection h with h; exact h.symm)
      | cases h

/-- Witness for `c5_tst_characterisation`: the success direction of the
characterisation at the scenario body, and the error conjunct at the
too-short body `(12)`. -/
theorem c5_tst_characterisation_witness :
    (∃ t, TST.parse tstExample = Except.ok t) ∧
    Error.InvalidFormat = Error.InvalidFormat :=
  ⟨(c5_tst_characterisation tstExample).1.mpr (by decide),
   (c5_tst_characterisation ['(', '1', '2', ')']).2.1 Error.InvalidFormat (by decide)⟩

/-! ## Claim C7: the fixed-point decimal decoder -/

/-- The base-10 value of a digit string. -/
def decVal (ds : List Char) : Nat := ds.foldl (fun a c => a * 10 + (c.toNat - 48)) 0

theorem charDigit_of_digit {c : Char} (h : 48 ≤ c.toNat ∧ c.toNat ≤ 57) :
    charDigit 10 c = some (c.toNat - 48) := by
  unfold charDigit
  rw [if_pos h]
  simp only []
  rw [if_pos (by omega)]

theorem foldl_digits_mono (ds : List Char) :
    ∀ acc : Nat, acc ≤ ds.foldl (fun a c => a * 10 + (c.toNat - 48)) acc := by
  induction ds with
  | nil => intro acc; simp
  | cons c t ih =>
    intro acc
    simp only [List.foldl_cons]
    calc acc ≤ acc * 10 + (c.toNat - 48) := by omega
      _ ≤ _ := ih _

theorem digitsLoopC_of_digits (bound : Nat) (ds : List Char) :
    ∀ acc : Nat, (∀ c ∈ ds, 48 ≤ c.toNat ∧ c.toNat ≤ 57) →
    ds.foldl (fun a c => a * 10 + (c.toNat - 48)) acc ≤ bound →
    digitsLoopC 10 bound acc ds
      = some (ds.foldl (fun a c => a * 10 + (c.toNat - 48)) acc) := by
  induction ds with
  | nil => intro acc _ _; rfl
  | cons c t ih =>
    intro acc hd hb
    simp only [List.foldl_cons] at hb ⊢
    rw [digitsLoopC, charDigit_of_digit (hd c (by simp))]
    simp only []
    rw [if_pos (le_trans (foldl_digits_mono t _) hb)]
    exact ih _ (fun x hx => hd x (by simp [hx])) hb

/-- `from_str_radix` evaluated on a nonempty all-digit string within bounds
yields its decimal value. -/
theorem fromStrRadixC_of_digits (bound : Nat) (ds : List Char) (hne : ds ≠ [])
    (hd : ∀ c ∈ ds, 48 ≤ c.toNat ∧ c.toNat ≤ 57) (hb : decVal ds ≤ bound) :
    fromStrRadixC 10 bound ds = some (decVal ds) := by
  cases ds with
  | nil => exact absurd rfl hne
  | cons c t =>
    have hc := hd c (by simp)
    have h1 : c ≠ '+' := by
      intro h; rw [h] at hc; exact absurd hc (by decide)
    rw [fromStrRadixC, if_neg h1]
    exact digitsLoopC_of_digits bound (c :: t) 0 hd hb

/-- C7: for width `L` and decimal-point offset `P ≤ L`, the fixed-point
decoder reads the `L + 1` characters after `(` and nothing beyond them
(appending anything after those characters leaves the result unchanged);
on a body consisting of `L - P` integer digits, an arbitrary skipped point
character and `P` fraction digits it succeeds with
`mantissa = integer_part * 10 ^ P + fractional_part` and point `P` (provided
the mantissa and `10 ^ P` fit in a u64, whose overflow-checked arithmetic
would otherwise panic); and the floating conversion divides the mantissa by
`10 ^ P`. -/
theorem c7_ufixed_double (pre post rest : List Char) (c : Char) (L P : Nat)
    (hpre : pre.length = L - P) (hpost : post.length = P) (hP : P ≤ L)
    (hpd : ∀ ch ∈ pre, 48 ≤ ch.toNat ∧ ch.toNat ≤ 57)
    (hpod : ∀ ch ∈ post, 48 ≤ ch.toNat ∧ ch.toNat ≤ 57)
    (hprene : pre ≠ []) (hpostne : post ≠ [])
    (hpow : 10 ^ P ≤ u64Max)
    (hval : decVal pre * 10 ^ P + decVal post ≤ u64Max) :
    UFixedDouble.parse (('(' :: pre) ++ c :: post ++ rest) L P
      = pok ⟨decVal pre * 10 ^ P + decVal post, P⟩ ∧
    UFixedDouble.toFloat ⟨decVal pre * 10 ^ P + decVal post, P⟩
      = ((decVal pre * 10 ^ P + decVal post : Nat) : ℚ) / (10 : ℚ) ^ P ∧
    (∀ (body extra : List Char), body.length = L + 2 →
      UFixedDouble.parse (body ++ extra) L P = UFixedDouble.parse body L P) := by
  refine ⟨?_, rfl, ?_⟩
  · have hbuf : ((('(' :: pre) ++ c :: post ++ rest).drop 1).take (L + 2 - 1)
        = pre ++ c :: post := by
      have h1 : (('(' :: pre) ++ c :: post ++ rest).drop 1 = pre ++ (c :: post ++ rest) := by
        simp
      rw [h1]
      have h2 : L + 2 - 1 = pre.length + (P + 1) := by omega
      rw [h2, List.take_append]
      have h3 : (c :: post ++ rest).take (P + 1) = c :: post := by
        simp only [List.cons_append, List.take_succ_cons]
        rw [List.take_left' hpost]
      rw [h3]
    have hlen : (('(' :: pre) ++ c :: post ++ rest).length = L + 2 + rest.length := by
      simp [List.length_append, hpre, hpost]
      omega
    rw [UFixedDouble.parse]
    rw [sliceGet, if_pos (by rw [hlen]; omega)]
    rw [hbuf]
    simp only []
    rw [if_neg (by omega)]
    have hup : (pre ++ c :: post).take (L - P) = pre := List.take_left' hpre
    have hlo : (pre ++ c :: post).drop (L - P) = c :: post := List.drop_left' hpre
    rw [hup, hlo]
    have hq : decVal pre ≤ u64Max := by
      have h10 : 0 < 10 ^ P := Nat.pos_pow_of_pos P (by norm_num)
      have := Nat.le_mul_of_pos_right (decVal pre) h10
      omega
    rw [fromStrRadixC_of_digits u64Max pre hprene hpd hq]
    simp only []
    rw [idxFrom, if_pos (by simp)]
    simp only [List.drop_succ_cons, List.drop_zero]
    rw [fromStrRadixC_of_digits u64Max post hpostne hpod (by omega)]
    simp only []
    rw [if_neg (by omega), if_neg (by omega)]
  · intro body extra hb
    rw [UFixedDouble.parse, UFixedDouble.parse]
    rw [sliceGet, sliceGet]
    rw [if_pos (by simp [List.length_append]; omega), if_pos (by omega)]
    have hdrop : (body ++ extra).drop 1 = body.drop 1 ++ extra :=
      List.drop_append_of_le_length (by omega)
    rw [hdrop]
    have htake : (body.drop 1 ++ extra).take (L + 2 - 1) = (body.drop 1).take (L + 2 - 1) := by
      rw [List.take_append_of_le_length (by simp [List.length_drop]; omega)]
    rw [htake]

/-- Witness for `c7_ufixed_double` at the body `(1.5)` with width 2,
point 1: mantissa 15, point 1. -/
theorem c7_ufixed_double_witness :
    UFixedDouble.parse (('(' :: ['1']) ++ '.' :: ['5'] ++ [')']) 2 1
      = pok ⟨15, 1⟩ := by
  have h := (c7_ufixed_double ['1'] ['5'] [')'] '.' 2 1 (by decide) (by decide) (by decide)
    (by decide) (by decide) (by decide) (by decide) (by decide) (by decide)).1
  exact h

/-! ## Claim C9: the e-MUCS state reducer

State `apply` methods take `&mut self` in Rust; they are modelled as
functions returning the `Result<()>` together with the (possibly updated)
record, so that "leaves the state unchanged" is expressible. -/

/-- A reading from a power meter, per tariff (src/state/common.rs). -/
structure MeterReading where
  toRead : Option ℚ := none
  byRead : Option ℚ := none

/-- One of three lines of the common (base) snapshot.  Field set as
witnessed by the construction in the src/state/dsmr5.rs test (the
src/state/common.rs shipped under src is an older revision that also holds a
voltage field; the dsmr5 layer stores voltage itself). -/
structure CLine where
  voltage_sags : Option Nat := none
  voltage_swells : Option Nat := none
  active_power_plus : Option ℚ := none
  active_power_neg : Option ℚ := none
  current : Option Nat := none

/-- One of four slaves of the common snapshot (src/state/common.rs). -/
structure CSlave where
  device_type : Option Nat := none
  meter_reading : Option (TST × ℚ) := none

/-- The flat fields of the common snapshot (src/state/common.rs). -/
structure CState where
  datetime : Option TST := none
  meterreadings : Fin 2 → MeterReading := fun _ => {}
  tariff_indicator : Option (Nat × Nat) := none
  power_delivered : Option ℚ := none
  power_received : Option ℚ := none
  power_failures : Option Nat := none
  long_power_failures : Option Nat := none

/-- One element of `OctetString::as_octets` (src/types.rs): the i-th hex
digit pair, `none` when the iterator is exhausted. -/
def octetAt (s : List Char) (i : Nat) : Option (Except Error Nat) :=
  if i < s.length / 2 then
    some (match fromStrRadixC 16 u8Max ((s.drop (2 * i)).take 2) with
          | some v => Except.ok v
          | none => Except.error Error.InvalidFormat)
  else none

/-- Modelled from the spec: `common::Line::apply`, the per-line reducer of the
base layer, is called by src/state/dsmr5.rs but its body is not among the
shipped sources; following section 4.5 it stores each line-tagged quantity of
the base vocabulary into the matching slot.  It is never reached by the C9
object. -/
def CLine.apply (l : CLine) (o : dsmr4.OBIS) : Except Error Unit × CLine :=
  match o with
  | .VoltageSags _ n => (Except.ok (), { l with voltage_sags := some n.val })
  | .VoltageSwells _ n => (Except.ok (), { l with voltage_swells := some n.val })
  | .InstantaneousCurrent _ n => (Except.ok (), { l with current := some n.val })
  | .InstantaneousActivePowerPlus _ d =>
    (Except.ok (), { l with active_power_plus := some d.toFloat })
  | .InstantaneousActivePowerNeg _ d =>
    (Except.ok (), { l with active_power_neg := some d.toFloat })
  | _ => (Except.ok (), l)

/-- Modelled from the spec: `common::Slave::apply`, the per-slave reducer of
the base layer (same situation as `CLine.apply`); it stores the device type
and the meter reading, as the snapshot asserted by the src/state/dsmr5.rs
test shows.  It is never reached by the C9 object. -/
def CSlave.apply (s : CSlave) (o : dsmr4.OBIS) : Except Error Unit × CSlave :=
  match o with
  | .SlaveDeviceType _ n => (Except.ok (), { s with device_type := some n.val })
  | .SlaveMeterReading _ t d =>
    (Except.ok (), { s with meter_reading := some (t, d.toFloat) })
  | _ => (Except.ok (), s)

/-- `common::State::apply` (src/state/common.rs): the flat-field reducer of
the base layer. -/
def CState.apply (st : CState) (o : dsmr4.OBIS) : Except Error Unit × CState :=
  match o with
  | .DateTime t => (Except.ok (), { st with datetime := some t })
  | .MeterReadingTo t mr =>
    let upd := { (st.meterreadings t.idx) with toRead := some mr.toFloat }
    (Except.ok (), { st with meterreadings := Function.update st.meterreadings t.idx upd })
  | .MeterReadingBy t mr =>
    let upd := { (st.meterreadings t.idx) with byRead := some mr.toFloat }
    (Except.ok (), { st with meterreadings := Function.update st.meterreadings t.idx upd })
  | .TariffIndicator ti =>
    (match octetAt ti 0 with
     | none => (Except.error Error.InvalidFormat, st)
     | some (Except.error e) => (Except.error e, st)
     | some (Except.ok b0) =>
       match octetAt ti 1 with
       | none => (Except.error Error.InvalidFormat, st)
       | some (Except.error e) => (Except.error e, st)
       | some (Except.ok b1) =>
         (Except.ok (), { st with tariff_indicator := some (b0, b1) }))
  | .PowerDelivered p => (Except.ok (), { st with power_delivered := some p.toFloat })
  | .PowerReceived p => (Except.ok (), { st with power_received := some p.toFloat })
  | .PowerFailures n => (Except.ok (), { st with power_failures := some n.val })
  | .LongPowerFailures n => (Except.ok (), { st with long_power_failures := some n.val })
  | _ => (Except.ok (), st)

/-- One of three lines of the dsmr5 snapshot (src/state/dsmr5.rs). -/
structure Line5 where
  parent : CLine := {}
  voltage : Option ℚ := none

/-- `dsmr5::Line::apply` (src/state/dsmr5.rs). -/
def Line5.apply (l : Line5) (o : dsmr5.OBIS) : Except Error Unit × Line5 :=
  match o with
  | .InstantaneousVoltage _ v => (Except.ok (), { l with voltage := some v.toFloat })
  | .DSMR4 o4 =>
    let (r, p) := l.parent.apply o4
    (r, { l with parent := p })

/-- One of four slaves of the dsmr5 snapshot (src/state/dsmr5.rs). -/
structure Slave5 where
  parent : CSlave := {}

/-- `dsmr5::Slave::apply` (src/state/dsmr5.rs): base objects are delegated,
anything else is the reducer-gap error. -/
def Slave5.apply (s : Slave5) (o : dsmr5.OBIS) : Except Error Unit × Slave5 :=
  match o with
  | .DSMR4 o4 =>
    let (r, p) := s.parent.apply o4
    (r, { s with parent := p })
  | _ => (Except.error Error.ObisForgotten, s)

/-- One of three lines of the e-MUCS snapshot (src/state/e_mucs.rs). -/
structure LineE where
  parent : Line5 := {}
  current : Option ℚ := none

/-- `e_mucs::Line::apply` (src/state/e_mucs.rs). -/
def LineE.apply (l : LineE) (o : eMucs.OBIS) : Except Error Unit × LineE :=
  match o with
  | .InstantaneousCurrent _ c => (Except.ok (), { l with current := some c.toFloat })
  | .DSMR5 o5 =>
    let (r, p) := l.parent.apply o5
    (r, { l with parent := p })
  | _ => (Except.error Error.ObisForgotten, l)

/-- One of four slaves of the e-MUCS snapshot (src/state/e_mucs.rs). -/
structure SlaveE where
  parent : Slave5 := {}
  valve_state : Option Nat := none

/-- `e_mucs::Slave::apply` (src/state/e_mucs.rs): dsmr5-wrapped objects are
delegated, the valve state is stored, and anything else — which includes
`SlaveMeterReadingNonCorrected` — is the reducer-gap error. -/
def SlaveE.apply (s : SlaveE) (o : eMucs.OBIS) : Except Error Unit × SlaveE :=
  match o with
  | .DSMR5 o5 =>
    let (r, p) := s.parent.apply o5
    (r, { s with parent := p })
  | .SlaveValveState _ v => (Except.ok (), { s with valve_state := some v.val })
  | _ => (Except.error Error.ObisForgotten, s)

/-- The e-MUCS snapshot (src/state/e_mucs.rs). -/
structure StateE where
  parent : CState := {}
  breaker_state : Option Nat := none
  limiter_threshold : Option ℚ := none
  fuse_supervision_threshold : Option Nat := none
  average_demand : Option ℚ := none
  lines : Fin 3 → LineE := fun _ => {}
  slaves : Fin 4 → SlaveE := fun _ => {}

/-- `e_mucs::State::apply` (src/state/e_mucs.rs): objects with a line index
go to the per-line reducer, objects with a slave index to the per-slave
reducer, the rest to the flat fields or to the base reducer. -/
def StateE.apply (st : StateE) (o : eMucs.OBIS) : Except Error Unit × StateE :=
  match eMucs.lineOf o with
  | some l =>
    let (r, l') := (st.lines l.idx).apply o
    (r, { st with lines := Function.update st.lines l.idx l' })
  | none =>
    match eMucs.slaveOf o with
    | some s =>
      let (r, s') := (st.slaves s.idx).apply o
      (r, { st with slaves := Function.update st.slaves s.idx s' })
    | none =>
      match o with
      | .DSMR5 (.DSMR4 o4) =>
        let (r, p) := st.parent.apply o4
        (r, { st with parent := p })
      | .SlaveMeterReadingNonCorrected _ _ _ => (Except.ok (), st)
      | .BreakerState b => (Except.ok (), { st with breaker_state := some b.val })
      | .LimiterThreshold l => (Except.ok (), { st with limiter_threshold := some l.toFloat })
      | .FuseSupervisionThreshold f =>
        (Except.ok (), { st with fuse_supervision_threshold := some f.val })
      | .CurrentAverageDemand f => (Except.ok (), { st with average_demand := some f.toFloat })
      | .MaximumDemandMonth _ _ => (Except.ok (), st)
      | .MaximumDemandYear => (Except.ok (), st)
      | _ => (Except.error Error.ObisForgotten, st)

/-- C9: applying `SlaveMeterReadingNonCorrected` to the e-MUCS snapshot
always yields the reducer-gap error `ObisForgotten` and leaves the snapshot
unchanged: its slave accessor routes it into the per-slave reducer, which
has no arm for it, so the ignoring arm in `StateE.apply` is never reached. -/
theorem c9_slave_mrnc_forgotten (st : StateE) (s : Slave) (t : TST) (d : UFixedDouble) :
    st.apply (eMucs.OBIS.SlaveMeterReadingNonCorrected s t d)
      = (Except.error Error.ObisForgotten, st) ∧
    eMucs.slaveOf (eMucs.OBIS.SlaveMeterReadingNonCorrected s t d) = some s ∧
    eMucs.lineOf (eMucs.OBIS.SlaveMeterReadingNonCorrected s t d) = none := by
  refine ⟨?_, rfl, rfl⟩
  show (Except.error Error.ObisForgotten,
    { st with slaves := Function.update st.slaves s.idx (st.slaves s.idx) })
    = (Except.error Error.ObisForgotten, st)
  rw [Function.update_eq_self]

/-! ## Claims C4 and C8: the streaming Reader

`Reader::next` (src/reader.rs) is modelled as a function from the remaining
byte stream (a list of `Except ε byte` items, the iterator's items) to the
produced item together with the stream left for the following call.  The
frame buffer is the 2048-byte array `[0u8; 2048]` with the copied bytes at
the front, returned as a full zero-padded list. -/

/-- The outcome of one `Reader::next` call. -/
inductive RNext (ε : Type) where
  | eos
  | ioError (e : ε)
  | overflow
  | frame (buffer : List Nat)

/-- The CRC-copy phase (src/reader.rs lines 56-61): copy `n` more bytes
through `copy_byte`, then yield the Readout. -/
def copyCrc {ε : Type} (acc : List Nat) (i : Nat) :
    Nat → List (Except ε Nat) → RNext ε × List (Except ε Nat)
  | 0, s => (RNext.frame (acc ++ List.replicate (2048 - acc.length) 0), s)
  | _ + 1, [] => (RNext.eos, [])
  | _ + 1, Except.error e :: rest => (RNext.ioError e, rest)
  | n + 1, Except.ok b :: rest =>
    if 2048 ≤ i then (RNext.overflow, rest)
    else copyCrc (acc ++ [b]) (i + 1) n rest

/-- The copy phase (src/reader.rs lines 53-67): append bytes until `!` is
seen, signalling overflow when the buffer index reaches the capacity. -/
def copyLoop {ε : Type} : List (Except ε Nat) → List Nat → Nat →
    RNext ε × List (Except ε Nat)
  | [], _, _ => (RNext.eos, [])
  | Except.error e :: rest, _, _ => (RNext.ioError e, rest)
  | Except.ok b :: rest, acc, i =>
    if 2048 ≤ i then (RNext.overflow, rest)
    else if b = 33 then copyCrc (acc ++ [b]) (i + 1) 4 rest
    else copyLoop rest (acc ++ [b]) (i + 1)

/-- `Reader::next` (src/reader.rs): seek a `/` start marker, then copy. -/
def readerNext {ε : Type} : List (Except ε Nat) → RNext ε × List (Except ε Nat)
  | [] => (RNext.eos, [])
  | Except.error e :: rest => (RNext.ioError e, rest)
  | Except.ok b :: rest =>
    if b = 47 then copyLoop rest [47] 1 else readerNext rest

theorem readerNext_seek {ε : Type} (g : List Nat) (hg : 47 ∉ g) (s : List (Except ε Nat)) :
    readerNext (g.map Except.ok ++ s) = readerNext s := by
  induction g with
  | nil => rfl
  | cons b t ih =>
    have hb : b ≠ 47 := fun h => hg (h ▸ List.mem_cons_self b t)
    simp only [List.map_cons, List.cons_append, readerNext, if_neg hb]
    exact ih (fun h => hg (List.mem_cons_of_mem b h))

theorem copyLoop_skip {ε : Type} (d : List Nat) :
    ∀ (acc : List Nat) (i : Nat) (s : List (Except ε Nat)), 33 ∉ d →
    i + d.length ≤ 2048 →
    copyLoop (d.map Except.ok ++ s) acc i = copyLoop s (acc ++ d) (i + d.length) := by
  induction d with
  | nil => intro acc i s _ _; simp
  | cons b t ih =>
    intro acc i s hd hi
    have hb : b ≠ 33 := fun h => hd (h ▸ List.mem_cons_self b t)
    simp only [List.map_cons, List.cons_append, copyLoop]
    rw [if_neg (by simp at hi; omega), if_neg hb]
    simp only [List.append_eq]
    rw [ih (acc ++ [b]) (i + 1) s (fun h => hd (List.mem_cons_of_mem b h))
      (by simp at hi ⊢; omega)]
    have h1 : (acc ++ [b]) ++ t = acc ++ b :: t := by simp
    have h2 : i + 1 + t.length = i + (b :: t).length := by
      simp only [List.length_cons]; omega
    rw [h1, h2]

theorem copyCrc_run {ε : Type} (cs : List Nat) :
    ∀ (acc : List Nat) (i : Nat) (s : List (Except ε Nat)),
    i + cs.length ≤ 2048 →
    copyCrc acc i cs.length (cs.map Except.ok ++ s)
      = (RNext.frame ((acc ++ cs) ++ List.replicate (2048 - (acc ++ cs).length) 0), s) := by
  induction cs with
  | nil => intro acc i s _; simp [copyCrc]
  | cons b t ih =>
    intro acc i s hi
    simp only [List.map_cons, List.cons_append, List.length_cons, copyCrc]
    rw [if_neg (by simp at hi; omega)]
    simp only [List.append_eq]
    rw [ih (acc ++ [b]) (i + 1) s (by simp at hi ⊢; omega)]
    simp

theorem copyCrc_exhaust {ε : Type} (p : List Nat) :
    ∀ (acc : List Nat) (i n : Nat), p.length < n → i + p.length ≤ 2048 →
    copyCrc acc i n (p.map (Except.ok (ε := ε))) = (RNext.eos, []) := by
  induction p with
  | nil =>
    intro acc i n hn _
    cases n with
    | zero => omega
    | succ m => rfl
  | cons b t ih =>
    intro acc i n hn hi
    cases n with
    | zero => omega
    | succ m =>
      simp only [List.map_cons, copyCrc]
      rw [if_neg (by simp at hi; omega)]
      exact ih (acc ++ [b]) (i + 1) m (by simp at hn; omega) (by simp at hi ⊢; omega)

theorem readerNext_marker {ε : Type} (s : List (Except ε Nat)) :
    readerNext (Except.ok 47 :: s) = copyLoop s [47] 1 := by
  simp [readerNext]

theorem copyLoop_bang {ε : Type} (s : List (Except ε Nat)) (acc : List Nat) (i : Nat)
    (hi : i < 2048) :
    copyLoop (Except.ok 33 :: s) acc i = copyCrc (acc ++ [33]) (i + 1) 4 s := by
  rw [copyLoop, if_neg (by omega), if_pos rfl]

/-- C4: when the buffer capacity is exhausted before a `!` terminator (2047
bytes copied after `/` with no `!` among them, and one more byte arriving),
`Reader::next` yields the overflow signal having consumed exactly through the
overflowing byte; the following call seeks `/` on the live remainder `t` of
the byte source, so a well-formed frame there (marker, data with its first
`!` within capacity, 4 checksum bytes) is yielded as an intact Readout
containing only bytes of that frame. -/
theorem c4_overflow_resync {ε : Type} (g c g2 d crc : List Nat) (x : Nat)
    (r t : List (Except ε Nat))
    (hg : 47 ∉ g) (hc : 33 ∉ c) (hclen : c.length = 2047)
    (ht : t = g2.map Except.ok ++ Except.ok 47 ::
      (d.map Except.ok ++ Except.ok 33 :: (crc.map Except.ok ++ r)))
    (hg2 : 47 ∉ g2) (hd : 33 ∉ d) (hdlen : d.length ≤ 2042) (hcrc : crc.length = 4) :
    readerNext (g.map Except.ok ++ Except.ok 47 :: (c.map Except.ok ++ Except.ok x :: t))
      = (RNext.overflow, t) ∧
    readerNext t
      = (RNext.frame (47 :: d ++ 33 :: crc ++ List.replicate (2042 - d.length) 0), r) := by
  constructor
  · rw [readerNext_seek g hg, readerNext_marker]
    rw [copyLoop_skip c [47] 1 (Except.ok x :: t) hc (by omega)]
    rw [hclen]
    simp [copyLoop]
  · subst ht
    rw [readerNext_seek g2 hg2, readerNext_marker]
    rw [copyLoop_skip d [47] 1 (Except.ok 33 :: (crc.map Except.ok ++ r)) hd (by omega)]
    rw [copyLoop_bang _ _ _ (by omega)]
    have hrun := copyCrc_run (ε := ε) crc (([47] ++ d) ++ [33]) (1 + d.length + 1) r
      (by simp [hcrc]; omega)
    rw [hcrc] at hrun
    rw [hrun]
    have hlist : (([47] ++ d) ++ [33]) ++ crc = 47 :: d ++ 33 :: crc := by simp
    have hlen2 : 2048 - ((([47] ++ d) ++ [33]) ++ crc).length = 2042 - d.length := by
      simp [hcrc]
    rw [hlist] at *
    rw [hlen2]

/-- C8: when the byte source is exhausted while a frame is being copied — a
`/` was seen but either no `!` arrived yet, or `!` arrived and fewer than 4
checksum bytes followed — `Reader::next` yields end-of-sequence, silently
discarding the partial frame. -/
theorem c8_truncated_frame_eos {ε : Type} (g c g2 d p : List Nat)
    (hg : 47 ∉ g) (hc : 33 ∉ c) (hclen : c.length ≤ 2047)
    (hg2 : 47 ∉ g2) (hd : 33 ∉ d) (hp : p.length < 4) (hdp : d.length + p.length ≤ 2046) :
    readerNext ((g.map Except.ok ++ Except.ok 47 :: c.map Except.ok) : List (Except ε Nat))
      = (RNext.eos, []) ∧
    readerNext ((g2.map Except.ok ++ Except.ok 47 ::
        (d.map Except.ok ++ Except.ok 33 :: p.map Except.ok)) : List (Except ε Nat))
      = (RNext.eos, []) := by
  constructor
  · rw [readerNext_seek g hg, readerNext_marker]
    rw [show (c.map (Except.ok (ε := ε))) = c.map Except.ok ++ [] by simp]
    rw [copyLoop_skip c [47] 1 [] hc (by omega)]
    rfl
  · rw [readerNext_seek g2 hg2, readerNext_marker]
    rw [copyLoop_skip d [47] 1 (Except.ok 33 :: p.map Except.ok) hd (by omega)]
    rw [copyLoop_bang _ _ _ (by omega)]
    exact copyCrc_exhaust p _ (1 + d.length + 1) 4 hp (by omega)

/-- The post-overflow remainder stream used by the C4 witness: garbage-free,
holding one well-formed frame `/FG!0123` and nothing after it. -/
def c4Tail : List (Except Unit Nat) :=
  ([] : List Nat).map Except.ok ++ Except.ok 47 ::
    ([70, 71].map Except.ok ++ Except.ok 33 :: ([48, 49, 50, 51].map Except.ok ++ []))

/-- Witness for `c4_overflow_resync`: an oversized frame of 2047 `A` bytes
followed by the overflowing byte, then the intact frame `/FG!0123`. -/
theorem c4_overflow_resync_witness :
    readerNext (([] : List Nat).map Except.ok ++ Except.ok 47 ::
        ((List.replicate 2047 65).map (Except.ok (ε := Unit)) ++ Except.ok 66 :: c4Tail))
      = (RNext.overflow, c4Tail) ∧
    readerNext c4Tail
      = (RNext.frame (47 :: [70, 71] ++ 33 :: [48, 49, 50, 51] ++
          List.replicate (2042 - [70, 71].length) 0), []) :=
  c4_overflow_resync [] (List.replicate 2047 65) [] [70, 71] [48, 49, 50, 51] 66 [] c4Tail
    (by simp) (by rw [List.mem_replicate]; omega) (List.length_replicate 2047 65) rfl
    (by simp) (by decide) (by decide) (by decide)

/-- Witness for `c8_truncated_frame_eos`: the source ends after `/A` in one
scenario and after `/F!0` (one checksum byte of four) in the other. -/
theorem c8_truncated_frame_eos_witness :
    readerNext ((([] : List Nat).map Except.ok ++ Except.ok 47 ::
        ([65] : List Nat).map Except.ok) : List (Except Unit Nat)) = (RNext.eos, []) ∧
    readerNext ((([] : List Nat).map Except.ok ++ Except.ok 47 ::
        (([70] : List Nat).map Except.ok ++ Except.ok 33 ::
          ([48] : List Nat).map Except.ok)) : List (Except Unit Nat)) = (RNext.eos, []) :=
  c8_truncated_frame_eos [] [65] [] [70] [48]
    (by simp) (by decide) (by decide) (by simp) (by decide) (by decide) (by decide)

/-! ## Claim C1: `Readout::to_telegram` and the CRC check

`to_telegram` (src/lib.rs) works on the raw byte buffer; it is modelled on
`List Nat` byte lists.  `core::str::from_utf8` is the standard UTF-8
validation; `str::find` is the first matching byte position; `str::get` on a
byte range checks char boundaries. -/

/-- A UTF-8 continuation byte. -/
def isCont (b : Nat) : Bool := 128 ≤ b ∧ b ≤ 191

/-- One step of the standard UTF-8 acceptance automaton, as run by
`core::str::from_utf8`.  State 0 expects a new character; states 1-3 expect
that many plain continuation bytes; states 4-7 expect the restricted first
continuation byte after a lead byte E0, ED, F0 or F4 (excluding overlong
forms, surrogates and code points above U+10FFFF), followed by the remaining
plain continuations. -/
def utf8Step (q b : Nat) : Option Nat :=
  match q with
  | 0 =>
    if b < 128 then some 0
    else if b < 194 then none
    else if b = 224 then some 4
    else if b < 224 then some 1
    else if b = 237 then some 5
    else if b < 240 then some 2
    else if b = 240 then some 6
    else if b = 244 then some 7
    else if b < 245 then some 3
    else none
  | 1 => if isCont b then some 0 else none
  | 2 => if isCont b then some 1 else none
  | 3 => if isCont b then some 2 else none
  | 4 => if 160 ≤ b ∧ b ≤ 191 then some 1 else none
  | 5 => if 128 ≤ b ∧ b ≤ 159 then some 1 else none
  | 6 => if 144 ≤ b ∧ b ≤ 191 then some 2 else none
  | 7 => if 128 ≤ b ∧ b ≤ 143 then some 2 else none
  | _ => none

/-- Run of the UTF-8 automaton; accepting means ending in state 0. -/
def utf8Run (q : Nat) : List Nat → Bool
  | [] => q = 0
  | b :: rest =>
    match utf8Step q b with
    | none => false
    | some q2 => utf8Run q2 rest

/-- UTF-8 validity of a byte list, as checked by `core::str::from_utf8`. -/
def utf8Valid (s : List Nat) : Bool := utf8Run 0 s

/-- `str::is_char_boundary` (byte view): the start, the end, or a byte that
is not a continuation byte. -/
def isCharBoundary (s : List Nat) (i : Nat) : Bool :=
  if i = 0 then true
  else
    match s.get? i with
    | none => i = s.length
    | some b => b < 128 || 192 ≤ b

/-- `str::get(a..b)`: `Some` iff `a ≤ b` and both ends are char boundaries. -/
def strGet (s : List Nat) (a b : Nat) : Option (List Nat) :=
  if a ≤ b ∧ isCharBoundary s a ∧ isCharBoundary s b then
    some ((s.drop a).take (b - a))
  else none

/-- `str::get(a..)`. -/
def strGetFrom (s : List Nat) (a : Nat) : Option (List Nat) :=
  if isCharBoundary s a then some (s.drop a) else none

/-- Digit value of a byte (`char::to_digit` on a one-byte char). -/
def byteDigit (radix b : Nat) : Option Nat :=
  let v : Option Nat :=
    if 48 ≤ b ∧ b ≤ 57 then some (b - 48)
    else if 97 ≤ b ∧ b ≤ 122 then some (b - 87)
    else if 65 ≤ b ∧ b ≤ 90 then some (b - 55)
    else none
  match v with
  | some v => if v < radix then some v else none
  | none => none

/-- The accumulating loop of `from_str_radix` over bytes. -/
def digitsLoopB (radix bound : Nat) (acc : Nat) : List Nat → Option Nat
  | [] => some acc
  | b :: rest =>
    match byteDigit radix b with
    | none => none
    | some d =>
      if acc * radix + d ≤ bound then digitsLoopB radix bound (acc * radix + d) rest
      else none

/-- `uN::from_str_radix` over bytes: only a leading `+` (byte 43) is a sign
for the unsigned types; everything else must be a digit. -/
def fromStrRadixB (radix bound : Nat) (s : List Nat) : Option Nat :=
  match s with
  | [] => none
  | c :: rest =>
    if c = 43 then
      if rest = [] then none else digitsLoopB radix bound 0 rest
    else digitsLoopB radix bound 0 (c :: rest)

/-- One shift step of CRC-16/ARC: shift right, xor the reflected polynomial
0xA001 when the dropped bit was set. -/
def crc16Shift (c : Nat) : Nat := if c % 2 = 1 then (c / 2) ^^^ 40961 else c / 2

/-- Fold one byte into a CRC-16/ARC state: xor, then eight shift steps.
Modelled from the crc16 crate's `State::<ARC>` (poly 0xA001 reflected,
initial value 0), the external dependency used by src/lib.rs. -/
def crc16Byte (c b : Nat) : Nat := crc16Shift^[8] (c ^^^ b)

/-- CRC-16/ARC of a byte sequence. -/
def crc16 (bs : List Nat) : Nat := bs.foldl crc16Byte 0

/-- The first byte position of the four-byte `\r\n\r\n` separator, as found
by `str::find("\r\n\r\n")`. -/
def findCrlf2 : List Nat → Option Nat
  | 13 :: 10 :: 13 :: 10 :: _ => some 0
  | _ :: rest => (findCrlf2 rest).map (· + 1)
  | [] => none

/-- The validated telegram view (src/lib.rs `Telegram`). -/
structure TelegramB where
  devPrefix : List Nat
  identification : List Nat
  objectBuffer : List Nat
deriving DecidableEq, Repr

/-- The header/body split of `to_telegram` (src/lib.rs lines 230-240),
applied to the checksummed region once the checksum matched. -/
def telegramTail (buffer : List Nat) : Except Error TelegramB :=
  match findCrlf2 buffer with
  | none => Except.error Error.InvalidFormat
  | some data_start =>
    match strGet (buffer.take data_start) 1 4 with
    | none => Except.error Error.InvalidFormat
    | some p =>
      match strGetFrom (buffer.take data_start) 5 with
      | none => Except.error Error.InvalidFormat
      | some ident =>
        match strGet (buffer.drop data_start) 4 ((buffer.drop data_start).length - 3) with
        | none => Except.error Error.InvalidFormat
        | some ob => Except.ok ⟨p, ident, ob⟩

/-- `Readout::to_telegram` (src/lib.rs lines 212-241). -/
def toTelegram (buffer : List Nat) : Except Error TelegramB :=
  if utf8Valid buffer then
    if buffer.length < 16 then Except.error Error.InvalidFormat
    else
      match buffer.findIdx? (fun b => b = 33) with
      | none => Except.error Error.InvalidFormat
      | some data_end =>
        let checked := buffer.take (data_end + 1)
        let trailer := buffer.drop (data_end + 1)
        match strGet trailer 0 4 with
        | none => Except.error Error.InvalidFormat
        | some cs =>
          match fromStrRadixB 16 u16Max cs with
          | none => Except.error Error.InvalidFormat
          | some given =>
            if given ≠ crc16 checked then Except.error Error.InvalidChecksum
            else telegramTail checked
  else Except.error Error.InvalidFormat

theorem utf8Step_ascii {q b q2 : Nat} (h : utf8Step q b = some q2) (hb : b < 128) :
    q = 0 ∧ q2 = 0 := by
  unfold utf8Step at h
  split at h
  · rw [if_pos hb] at h
    exact ⟨rfl, by injection h with h; exact h.symm⟩
  · rw [if_neg (by simp [isCont]; omega)] at h; cases h
  · rw [if_neg (by simp [isCont]; omega)] at h; cases h
  · rw [if_neg (by simp [isCont]; omega)] at h; cases h
  · rw [if_neg (by omega)] at h; cases h
  · rw [if_neg (by omega)] at h; cases h
  · rw [if_neg (by omega)] at h; cases h
  · rw [if_neg (by omega)] at h; cases h
  · cases h

theorem utf8Step_zero {b q2 : Nat} (h : utf8Step 0 b = some q2) : b < 128 ∨ 194 ≤ b := by
  by_cases h1 : b < 128
  · exact Or.inl h1
  · by_cases h2 : b < 194
    · unfold utf8Step at h
      rw [if_neg h1, if_pos h2] at h
      cases h
    · omega

theorem utf8Run_after_ascii :
    ∀ (s : List Nat) (q : Nat), utf8Run q s = true →
    ∀ i b c, s.get? i = some b → b < 128 → s.get? (i + 1) = some c →
      c < 128 ∨ 192 ≤ c := by
  intro s
  induction s with
  | nil =>
    intro q _ i b c hb _ _
    simp at hb
  | cons x rest ih =>
    intro q hq i b c hb hlt hc
    rw [utf8Run.eq_def] at hq
    simp only [] at hq
    cases hstep : utf8Step q x with
    | none => rw [hstep] at hq; cases hq
    | some q2 =>
      rw [hstep] at hq
      simp only [] at hq
      cases i with
      | zero =>
        simp only [List.get?_cons_zero, Option.some.injEq] at hb
        subst hb
        obtain ⟨hq0, hq20⟩ := utf8Step_ascii hstep hlt
        subst hq20
        simp only [List.get?_cons_succ] at hc
        cases rest with
        | nil => simp at hc
        | cons y t =>
          simp only [List.get?_cons_zero, Option.some.injEq] at hc
          subst hc
          rw [utf8Run.eq_def] at hq
          simp only [] at hq
          cases hstep2 : utf8Step 0 y with
          | none => rw [hstep2] at hq; simp at hq
          | some q3 =>
            rcases utf8Step_zero hstep2 with h | h
            · exact Or.inl h
            · exact Or.inr (by omega)
      | succ j =>
        simp only [List.get?_cons_succ] at hb hc
        exact ih q2 hq j b c hb hlt hc

/-- A hexadecimal digit byte (either case). -/
def isHexB (b : Nat) : Bool :=
  decide ((48 ≤ b ∧ b ≤ 57) ∨ (97 ≤ b ∧ b ≤ 102) ∨ (65 ≤ b ∧ b ≤ 70))

/-- The value of a hexadecimal digit byte. -/
def hvB (b : Nat) : Nat := (byteDigit 16 b).getD 0

theorem byteDigit_hex {b : Nat} (h : isHexB b = true) :
    byteDigit 16 b = some (hvB b) ∧ hvB b ≤ 15 := by
  simp only [isHexB, decide_eq_true_eq] at h
  unfold hvB byteDigit
  rcases h with h | h | h
  · rw [if_pos h]
    simp only []
    rw [if_pos (by omega)]
    simp
    omega
  · rw [if_neg (by omega), if_pos (by omega)]
    simp only []
    rw [if_pos (by omega)]
    simp
    omega
  · rw [if_neg (by omega), if_neg (by omega), if_pos (by omega)]
    simp only []
    rw [if_pos (by omega)]
    simp
    omega

theorem hex_ne_sign {b : Nat} (h : isHexB b = true) : b ≠ 43 := by
  simp only [isHexB, decide_eq_true_eq] at h
  omega

theorem hex_lt_128 {b : Nat} (h : isHexB b = true) : b < 128 := by
  simp only [isHexB, decide_eq_true_eq] at h
  omega

/-- `u16::from_str_radix` with radix 16 on four hexadecimal digit bytes. -/
theorem fromStrRadixB_hex4 {a b c d : Nat}
    (ha : isHexB a = true) (hb : isHexB b = true) (hc : isHexB c = true)
    (hd : isHexB d = true) :
    fromStrRadixB 16 u16Max [a, b, c, d]
      = some (((hvB a * 16 + hvB b) * 16 + hvB c) * 16 + hvB d) := by
  obtain ⟨hda, hba⟩ := byteDigit_hex ha
  obtain ⟨hdb, hbb⟩ := byteDigit_hex hb
  obtain ⟨hdc, hbc⟩ := byteDigit_hex hc
  obtain ⟨hdd, hbd⟩ := byteDigit_hex hd
  have hs1 := hex_ne_sign ha
  rw [fromStrRadixB, if_neg hs1]
  rw [digitsLoopB, hda]
  simp only []
  rw [if_pos (by unfold u16Max; omega)]
  rw [digitsLoopB, hdb]
  simp only []
  rw [if_pos (by unfold u16Max; omega)]
  rw [digitsLoopB, hdc]
  simp only []
  rw [if_pos (by unfold u16Max; omega)]
  rw [digitsLoopB, hdd]
  simp only []
  rw [if_pos (by unfold u16Max; omega)]
  rw [digitsLoopB]
  norm_num

/-- The header/body split never reports a checksum violation. -/
theorem telegramTail_ne_checksum (buf : List Nat) :
    telegramTail buf ≠ Except.error Error.InvalidChecksum := by
  unfold telegramTail
  split
  · simp
  · split
    · simp
    · split
      · simp
      · split
        · simp
        · simp

/-- C1: for a Readout buffer (at least 16 bytes; a Readout's is 1024) of
valid text whose first `!` at position `k` is followed by four hexadecimal
digit bytes `a b c d`, `to_telegram` recomputes CRC-16/ARC over the bytes
from the start through `!` inclusive and returns `InvalidChecksum` exactly
when that value differs from the declared checksum; with a matching checksum
the remaining header checks can only yield `InvalidFormat`, never
`InvalidChecksum`. -/
theorem c1_checksum_iff (buffer : List Nat) (a b c d k : Nat)
    (hlen : 16 ≤ buffer.length)
    (hval : utf8Valid buffer = true)
    (hfind : buffer.findIdx? (fun x => x = 33) = some k)
    (htake : (buffer.drop (k + 1)).take 4 = [a, b, c, d])
    (ha : isHexB a = true) (hb : isHexB b = true) (hc : isHexB c = true)
    (hd : isHexB d = true) :
    (toTelegram buffer = Except.error Error.InvalidChecksum ↔
      ((hvB a * 16 + hvB b) * 16 + hvB c) * 16 + hvB d ≠ crc16 (buffer.take (k + 1))) := by
  have hlen4 : (buffer.drop (k + 1)).length ≥ 4 := by
    have := congrArg List.length htake
    simp only [List.length_take, List.length_cons, List.length_nil] at this
    omega
  have hget3 : (buffer.drop (k + 1)).get? 3 = some d := by
    have : ((buffer.drop (k + 1)).take 4).get? 3 = some d := by rw [htake]; rfl
    rwa [List.get?_take (by omega)] at this
  have hbound : isCharBoundary (buffer.drop (k + 1)) 4 = true := by
    unfold isCharBoundary
    rw [if_neg (by omega)]
    cases hnext : (buffer.drop (k + 1)).get? 4 with
    | none =>
      simp only [List.get?_eq_none, List.length_drop] at hnext
      simp only [List.length_drop] at hlen4
      simp [List.length_drop]
      omega
    | some e =>
      have hgd : buffer.get? (k + 1 + 3) = some d := by
        rw [← List.get?_drop]; exact hget3
      have hge : buffer.get? (k + 1 + 3 + 1) = some e := by
        rw [show k + 1 + 3 + 1 = k + 1 + 4 by omega]
        rw [← List.get?_drop]
        exact hnext
      have := utf8Run_after_ascii buffer 0 hval (k + 1 + 3) d e hgd (hex_lt_128 hd) hge
      simp only []
      rcases this with h | h
      · simp; omega
      · simp; omega
  have hslice : strGet (buffer.drop (k + 1)) 0 4 = some [a, b, c, d] := by
    unfold strGet
    rw [if_pos ⟨by omega, by simp [isCharBoundary], hbound⟩]
    simp only [List.drop_zero, Nat.sub_zero]
    rw [htake]
  rw [toTelegram]
  rw [if_pos hval, if_neg (by omega)]
  rw [hfind]
  simp only []
  rw [hslice]
  simp only []
  rw [fromStrRadixB_hex4 ha hb hc hd]
  simp only []
  by_cases heq : ((hvB a * 16 + hvB b) * 16 + hvB c) * 16 + hvB d = crc16 (buffer.take (k + 1))
  · rw [if_neg (by omega)]
    constructor
    · intro h
      exact absurd h (telegramTail_ne_checksum _)
    · intro h
      exact absurd heq h
  · rw [if_pos heq]
    exact ⟨fun _ => heq, fun _ => rfl⟩


/-- A frame `/AAA\r\n\r\n1-2!` whose checksum trailer `0000` is tampered
(the real CRC-16/ARC of the checksummed region is 56338). -/
def c1Buffer : List Nat :=
  [47, 65, 65, 65, 13, 10, 13, 10, 49, 45, 50, 33, 48, 48, 48, 48]

set_option maxRecDepth 4000 in
/-- Witness for `c1_checksum_iff`: the tampered frame fails `to_telegram`
with `InvalidChecksum`, not `InvalidFormat`. -/
theorem c1_checksum_iff_witness :
    toTelegram c1Buffer = Except.error Error.InvalidChecksum ∧
    Error.InvalidChecksum ≠ Error.InvalidFormat :=
  ⟨(c1_checksum_iff c1Buffer 48 48 48 48 11 (by decide) (by decide) (by decide)
      (by decide) (by decide) (by decide) (by decide) (by decide)).mpr (by decide),
   by decide⟩
